import Mathlib

/-
Verification of the interruptible pipeline-regression comparator in
`conrad_scripts/laminar_floating_point_error/process.py`.

Shallow-embedding conventions:

* pandas DataFrames (loaded with `dtype=str`, so every cell is a string) are
  modelled as a list of column names plus a list of rows of strings; column
  lookup is positional, matching a rectangular frame with distinct headers.
* the global `shutdown_event` flag is modelled by the time at which it becomes
  set (`cancelAt : Option Nat`): the k-th executed call to `is_set()` returns
  true iff the set-time is `≤ k`.  A counter of executed `is_set()` calls is
  threaded through every function that reads the flag, so the model captures a
  flag that flips at an arbitrary moment and stays set (monotone), exactly as
  a `threading.Event` behaves.
* network and object-storage effects are supplied by explicit "world" records:
  each field gives the outcome the external system would return to a given
  call, and fallible calls return `Except`.
* Python dict keys missing from a result dict are modelled with `Option`
  fields (`none` = key absent).
-/

def MSG_INTERRUPTED : String := "Comparison interrupted by user"

/-- Value of the k-th executed `shutdown_event.is_set()` call when the flag
becomes set at time `cancelAt` (never, for `none`). -/
def flagAt : Option Nat → Nat → Bool
  | none, _ => false
  | some t, k => decide (t ≤ k)

/-- A pandas DataFrame read with `dtype=str`. -/
structure DataFrame where
  cols : List String
  rows : List (List String)
deriving DecidableEq

/-- `df.iloc[i]`, the i-th row (defensively `[]` out of range). -/
def DataFrame.row (df : DataFrame) (i : Nat) : List String := df.rows.getD i []

/-- `df.shape` : (number of rows, number of columns). -/
def DataFrame.shape (df : DataFrame) : Nat × Nat := (df.rows.length, df.cols.length)

/-- One entry of the `cell_differences` list built by `compare_csv_contents`. -/
structure CellDiff where
  row : Nat
  column : String
  new_value : String
  original_value : String
deriving DecidableEq

/-- The full comparison dict built at `process.py:341` (fields that are only
sometimes present are `Option`). -/
structure ContentComparison where
  filename : String
  new_path : String
  original_path : String
  headers_match : Bool
  shape_match : Bool
  cell_differences : List CellDiff
  new_shape : Nat × Nat
  original_shape : Nat × Nat
  error : Option String
  total_differences : Option Nat
  new_headers : Option (List String)
  original_headers : Option (List String)
deriving DecidableEq

/-- Result of `compare_csv_contents`: either the short dict built on the early
abort paths (interrupt before the frame downloads, or a download exception),
which has only filename/path/error keys, or the full comparison dict. -/
inductive CmpOutcome where
  | aborted (filename new_path original_path err : String)
  | full (c : ContentComparison)
deriving DecidableEq

/-- `d.get("error")`. -/
def CmpOutcome.errorField : CmpOutcome → Option String
  | .aborted _ _ _ e => some e
  | .full c => c.error

/-- `d.get("headers_match", True)`. -/
def CmpOutcome.headersMatchField : CmpOutcome → Bool
  | .aborted _ _ _ _ => true
  | .full c => c.headers_match

/-- `d.get("cell_differences", [])`. -/
def CmpOutcome.cellDiffsField : CmpOutcome → List CellDiff
  | .aborted _ _ _ _ => []
  | .full c => c.cell_differences

/-- `d.get("total_differences", 0)`. -/
def CmpOutcome.totalDiffsField : CmpOutcome → Nat
  | .aborted _ _ _ _ => 0
  | .full c => c.total_differences.getD 0

/-- `d.get("filename")` (always present on both dict shapes). -/
def CmpOutcome.filenameField : CmpOutcome → String
  | .aborted f _ _ _ => f
  | .full c => c.filename

/-- `download_csv_from_s3` (process.py:294): checks the shutdown flag before
and after fetching; the handler re-checks the flag when the fetch raises.
`fetch` is the outcome S3 + the CSV parser would deliver.  Returns the frame
or the raised exception's message, plus the advanced check counter. -/
def download_csv (fetch : Except String DataFrame) (c : Option Nat) (k : Nat) :
    Except String DataFrame × Nat :=
  if flagAt c k then (.error "Download cancelled due to interrupt", k + 1)
  else
    match fetch with
    | .error e =>
      if flagAt c (k + 1) then (.error "Download cancelled due to interrupt", k + 2)
      else (.error e, k + 2)
    | .ok df =>
      if flagAt c (k + 1) then
        -- the raise at line 307 is itself caught at line 314 and the handler
        -- re-reads the (still set) flag before re-raising
        (.error "Download cancelled due to interrupt", k + 3)
      else (.ok df, k + 2)

/-- Diff entries produced for one overlapping row (the inner
`for col in new_columns` loop at process.py:390): positional lookup of each
column in both rows, recording a `CellDiff` on string inequality. -/
def rowCellDiffs (cols newRow origRow : List String) (i : Nat) : List CellDiff :=
  (cols.zip (newRow.zip origRow)).filterMap fun p =>
    if p.2.1 ≠ p.2.2 then some ⟨i, p.1, p.2.1, p.2.2⟩ else none

/-- Entries for one extra row of the new frame (process.py:439-447). -/
def extraNewRowDiffs (df : DataFrame) (i : Nat) : List CellDiff :=
  (df.cols.zip (df.row i)).map fun p => ⟨i, p.1, p.2, "ROW_NOT_IN_ORIGINAL"⟩

/-- Entries for one extra row of the original frame (process.py:463-471). -/
def extraOrigRowDiffs (df : DataFrame) (i : Nat) : List CellDiff :=
  (df.cols.zip (df.row i)).map fun p => ⟨i, p.1, "ROW_NOT_IN_NEW", p.2⟩

/-- The row loops of `compare_csv_contents` (main cell loop and both
extra-row loops share this shape): iterate over row indices, reading the
shutdown flag on indices divisible by 100 (Python's short-circuit `and` only
calls `is_set()` then); on a set flag stop and report interruption, otherwise
append `step i` for the row.  Returns (accumulated diffs, counter,
interrupted?). -/
def cellLoop (c : Option Nat) (step : Nat → List CellDiff) :
    List Nat → Nat → List CellDiff → List CellDiff × Nat × Bool
  | [], k, acc => (acc, k, false)
  | i :: rest, k, acc =>
    if i % 100 = 0 then
      if flagAt c k then (acc, k + 1, true)
      else cellLoop c step rest (k + 1) (acc ++ step i)
    else cellLoop c step rest k (acc ++ step i)

/-- `range(a, b)` as a list. -/
def rangeFromTo (a b : Nat) : List Nat := (List.range b).drop a

/-- Assemble the full comparison dict on the paths past the header check:
`err = some MSG_INTERRUPTED` on the interrupted returns, `none` on
completion; `total_differences` is set on every such path. -/
def mkCmp (filename new_path original_path : String) (shape_ok : Bool)
    (nshape oshape : Nat × Nat) (diffs : List CellDiff) (err : Option String) :
    ContentComparison :=
  { filename := filename, new_path := new_path, original_path := original_path
    headers_match := true, shape_match := shape_ok
    cell_differences := diffs
    new_shape := nshape, original_shape := oshape
    error := err, total_differences := some diffs.length
    new_headers := none, original_headers := none }

/-- The part of `compare_csv_contents` from the header check on
(process.py:353-489), once both frames are in hand. -/
def compareRows (new_df original_df : DataFrame)
    (filename new_path original_path : String) (c : Option Nat) (k2 : Nat) :
    CmpOutcome × Nat :=
  -- line 353: header check, returning early on mismatch
  if new_df.cols ≠ original_df.cols then
    (.full { filename := filename, new_path := new_path, original_path := original_path
             headers_match := false, shape_match := true
             cell_differences := []
             new_shape := new_df.shape, original_shape := original_df.shape
             error := some "Headers do not match"
             total_differences := none
             new_headers := some new_df.cols
             original_headers := some original_df.cols }, k2)
  else
    let shape_ok := decide (new_df.shape = original_df.shape)
    let nshape := new_df.shape
    let oshape := original_df.shape
    let min_rows := min new_df.rows.length original_df.rows.length
    -- lines 380-414: main cell-by-cell loop over the overlapping rows
    match cellLoop c
        (fun i => rowCellDiffs new_df.cols (new_df.row i) (original_df.row i) i)
        (List.range min_rows) k2 [] with
    | (diffs1, k3, true) =>
      (.full (mkCmp filename new_path original_path shape_ok nshape oshape diffs1
        (some MSG_INTERRUPTED)), k3)
    | (diffs1, k3, false) =>
      -- line 417: check before processing extra rows
      if flagAt c k3 then
        (.full (mkCmp filename new_path original_path shape_ok nshape oshape diffs1
          (some MSG_INTERRUPTED)), k3 + 1)
      else
        if original_df.rows.length < new_df.rows.length then
          -- lines 426-447: extra rows in the new file
          match cellLoop c (fun i => extraNewRowDiffs new_df i)
              (rangeFromTo original_df.rows.length new_df.rows.length) (k3 + 1) diffs1 with
          | (diffs2, k4, true) =>
            (.full (mkCmp filename new_path original_path shape_ok nshape oshape diffs2
              (some MSG_INTERRUPTED)), k4)
          | (diffs2, k4, false) =>
            (.full (mkCmp filename new_path original_path shape_ok nshape oshape diffs2
              none), k4)
        else if new_df.rows.length < original_df.rows.length then
          -- lines 450-471: extra rows in the original file
          match cellLoop c (fun i => extraOrigRowDiffs original_df i)
              (rangeFromTo new_df.rows.length original_df.rows.length) (k3 + 1) diffs1 with
          | (diffs2, k4, true) =>
            (.full (mkCmp filename new_path original_path shape_ok nshape oshape diffs2
              (some MSG_INTERRUPTED)), k4)
          | (diffs2, k4, false) =>
            (.full (mkCmp filename new_path original_path shape_ok nshape oshape diffs2
              none), k4)
        else
          (.full (mkCmp filename new_path original_path shape_ok nshape oshape diffs1
            none), k3 + 1)

/-- `compare_csv_contents` (process.py:321-505).  `fetchNew`/`fetchOrig` are
the S3 fetch outcomes for the two paths.  Returns the outcome and the
advanced shutdown-check counter. -/
def compare_csv_contents (fetchNew fetchOrig : Except String DataFrame)
    (filename new_path original_path : String) (c : Option Nat) (k0 : Nat) :
    CmpOutcome × Nat :=
  -- line 329: check before starting
  if flagAt c k0 then (.aborted filename new_path original_path MSG_INTERRUPTED, k0 + 1)
  else
    match download_csv fetchNew c (k0 + 1) with
    | (.error e, k1) =>
      -- the raise propagates to the handler at line 491, which re-reads the flag
      if flagAt c k1 then (.aborted filename new_path original_path MSG_INTERRUPTED, k1 + 1)
      else (.aborted filename new_path original_path e, k1 + 1)
    | (.ok new_df, k1) =>
      match download_csv fetchOrig c k1 with
      | (.error e, k2) =>
        if flagAt c k2 then (.aborted filename new_path original_path MSG_INTERRUPTED, k2 + 1)
        else (.aborted filename new_path original_path e, k2 + 1)
      | (.ok original_df, k2) =>
        compareRows new_df original_df filename new_path original_path c k2

example :
    (compare_csv_contents
      (.ok ⟨["a"], [["1"], ["2"]]⟩) (.ok ⟨["a"], [["1"], ["3"]]⟩)
      "f.csv" "n/f.csv" "o/f.csv" none 0).1 =
    .full (mkCmp "f.csv" "n/f.csv" "o/f.csv" true (2, 1) (2, 1)
      [⟨1, "a", "2", "3"⟩] none) := by decide

example :
    (compare_csv_contents
      (.ok ⟨["a"], [["1"]]⟩) (.ok ⟨["a"], [["1"]]⟩)
      "f.csv" "n/f.csv" "o/f.csv" (some 0) 0).1.errorField = some MSG_INTERRUPTED := by decide

/-! ## Object storage world and `compare_csv_files` -/

/-- Metadata dict built by `get_file_metadata` on success (process.py:762):
`etag` is always a string (possibly empty after stripping quotes). -/
structure FileMeta where
  etag : String
  last_modified : Option String
  size : Option Nat
deriving DecidableEq

/-- The S3-compatible store as seen by the comparator: what each call would
return (`Except.error` = the client raised). -/
structure S3World where
  listing : String → Except String (List String)
  headObj : String → Except String FileMeta
  getCsv : String → Except String DataFrame

/-- Kernel-computable `String.endsWith`: the suffix test on the underlying
character lists. -/
def strEndsWith (s suf : String) : Bool :=
  decide (s.data.reverse.take suf.data.length = suf.data.reverse)

/-- Append a trailing slash when missing (process.py:726-728). -/
def normalizePfx (p : String) : String := if strEndsWith p "/" then p else p ++ "/"

/-- `list_csv_files` (process.py:723-748): lists top-level keys under the
prefix and keeps the `.csv` ones; any exception is swallowed and an empty
list returned. -/
def list_csv_files (w : S3World) (pfx : String) : List String :=
  match w.listing (normalizePfx pfx) with
  | .error _ => []
  | .ok keys => keys.filter (strEndsWith · ".csv")

/-- `get_file_metadata` (process.py:762-778): `none` models the `{}` dict
returned when `head_object` raises. -/
def get_file_metadata (w : S3World) (key : String) : Option FileMeta :=
  (w.headObj key).toOption

/-- Python truthiness of an optional string (`None` and `""` are falsy). -/
def truthyStr : Option String → Bool
  | none => false
  | some s => s ≠ ""

/-- Helper for `baseName`: keep the characters seen since the last `/`. -/
def baseNameAux : List Char → List Char → List Char
  | [], acc => acc
  | ch :: rest, acc =>
    if ch = '/' then baseNameAux rest [] else baseNameAux rest (acc ++ [ch])

/-- `Path(f).name`: the part of the key after the last `/`. -/
def baseName (s : String) : String := ⟨baseNameAux s.data []⟩

/-- Insert into a Python dict modelled as an insertion-ordered association
list: an existing key keeps its position and gets the new value, a new key is
appended. -/
def dictInsert (d : List (String × String)) (key val : String) :
    List (String × String) :=
  if d.any (·.1 = key) then d.map (fun p => if p.1 = key then (key, val) else p)
  else d ++ [(key, val)]

/-- `{Path(f).name: f for f in files}` (process.py:800-801). -/
def buildDict (files : List String) : List (String × String) :=
  files.foldl (fun d f => dictInsert d (baseName f) f) []

def dictLookup (d : List (String × String)) (key : String) : Option String :=
  (d.find? (·.1 = key)).map (·.2)

/-- One entry of `comparison_result["file_comparisons"]` (process.py:847). -/
structure FileComparison where
  filename : String
  new_path : String
  original_path : String
  new_etag : String
  original_etag : String
  new_size : Option Nat
  original_size : Option Nat
  original_last_modified : Option String
  etags_match : Bool
  cell_differences_count : Option Nat
  headers_match : Option Bool
  comparison_error : Option String
deriving DecidableEq

/-- The dict returned by `compare_csv_files` (process.py:803). -/
structure ComparisonResult where
  total_files_compared : Nat
  files_with_differences : Nat
  files_only_in_new : List String
  files_only_in_original : List String
  file_comparisons : List FileComparison
  detailed_differences : List CmpOutcome
  error : Option String
deriving DecidableEq

def ComparisonResult.init : ComparisonResult :=
  { total_files_compared := 0, files_with_differences := 0
    files_only_in_new := [], files_only_in_original := []
    file_comparisons := [], detailed_differences := [], error := none }

/-- The per-file loop of `compare_csv_files` (process.py:832-896).  Also
returns the list of filenames for which a detailed (download-both-files)
comparison was invoked — a trace of the `compare_csv_contents` call site at
line 877, used to state that matching checksums never trigger downloads. -/
def fileLoop (w : S3World) (c : Option Nat) :
    List (String × String × String) → ComparisonResult → List String → Nat →
    ComparisonResult × List String × Nat
  | [], res, dl, k => (res, dl, k)
  | (filename, new_path, original_path) :: rest, res, dl, k =>
    -- line 834: check before each file comparison; on a set flag mark the
    -- result interrupted and break
    if flagAt c k then ({ res with error := some MSG_INTERRUPTED }, dl, k + 1)
    else
      match get_file_metadata w new_path, get_file_metadata w original_path with
      | some mN, some mO =>
        -- line 844: both etags must be truthy (present and non-empty)
        if mN.etag ≠ "" ∧ mO.etag ≠ "" then
          let res := { res with total_files_compared := res.total_files_compared + 1 }
          let fc : FileComparison :=
            { filename := filename, new_path := new_path, original_path := original_path
              new_etag := mN.etag, original_etag := mO.etag
              new_size := mN.size, original_size := mO.size
              original_last_modified := mO.last_modified
              etags_match := decide (mN.etag = mO.etag)
              cell_differences_count := none, headers_match := none
              comparison_error := none }
          if mN.etag = mO.etag then
            fileLoop w c rest
              { res with file_comparisons := res.file_comparisons ++ [fc] } dl (k + 1)
          else
            let res := { res with files_with_differences := res.files_with_differences + 1 }
            -- line 867: check before the detailed comparison
            if flagAt c (k + 1) then
              let fc := { fc with
                comparison_error := some "Detailed comparison skipped due to interrupt" }
              fileLoop w c rest
                { res with file_comparisons := res.file_comparisons ++ [fc] } dl (k + 2)
            else
              let dk := compare_csv_contents (w.getCsv new_path)
                (w.getCsv original_path) filename new_path original_path c (k + 2)
              let det := dk.1
              let k2 := dk.2
              let fc := { fc with
                cell_differences_count := some det.totalDiffsField
                headers_match := some det.headersMatchField
                comparison_error := if truthyStr det.errorField then det.errorField else none }
              fileLoop w c rest
                { res with
                  detailed_differences := res.detailed_differences ++ [det]
                  file_comparisons := res.file_comparisons ++ [fc] }
                (dl ++ [filename]) k2
        else fileLoop w c rest res dl (k + 1)
      | _, _ => fileLoop w c rest res dl (k + 1)

/-- `compare_csv_files` (process.py:781-898). -/
def compare_csv_files (w : S3World) (new_pfx original_pfx : String)
    (c : Option Nat) (k : Nat) : ComparisonResult × List String × Nat :=
  -- line 784: check before starting
  if flagAt c k then
    ({ ComparisonResult.init with error := some MSG_INTERRUPTED }, [], k + 1)
  else
    let new_files := list_csv_files w new_pfx
    let original_files := list_csv_files w original_pfx
    let newD := buildDict new_files
    let origD := buildDict original_files
    let only_new := (newD.map Prod.fst).filter (fun n => ¬ origD.any (·.1 = n))
    let only_orig := (origD.map Prod.fst).filter (fun n => ¬ newD.any (·.1 = n))
    let toCompare := (newD.filter (fun p => origD.any (·.1 = p.1))).map
      (fun p => (p.1, p.2, (dictLookup origD p.1).getD ""))
    fileLoop w c toCompare
      { ComparisonResult.init with
        files_only_in_new := only_new, files_only_in_original := only_orig }
      [] (k + 1)

/-! ## HTTP retry policy, submit, poll -/

def MAX_RETRIES : Nat := 5
def RETRY_DELAY : Nat := 1

/-- Outcome of `retry_request` (process.py:194-229) together with how many
transport attempts were executed and the sleeps (in seconds) performed
between attempts. -/
structure RetryOut (R : Type) where
  result : Except String R
  attemptsMade : Nat
  sleeps : List Nat

/-- The `for attempt in range(1, MAX_RETRIES + 1)` loop of `retry_request`.
`transport a` is the outcome of the a-th call (request + `raise_for_status`
folded together: `.error` covers both connection failures and non-2xx
responses, the only exception types the loop catches). -/
def retry_from (transport : Nat → Except String R) (attempt : Nat) : RetryOut R :=
  match transport attempt with
  | .ok r => ⟨.ok r, attempt, []⟩
  | .error e =>
    if h : attempt < MAX_RETRIES then
      let out := retry_from transport (attempt + 1)
      ⟨out.result, out.attemptsMade, RETRY_DELAY :: out.sleeps⟩
    else ⟨.error e, attempt, []⟩
termination_by MAX_RETRIES - attempt

def retry_request (transport : Nat → Except String R) : RetryOut R :=
  retry_from transport 1

/-- The 200-body of `POST /pipeline/run`. -/
structure SubmitResponse where
  status_code : Int
  cache_id : Option String
deriving DecidableEq

/-- `run_pipeline` (process.py:564-617): one `retry_request` around the
submit POST; an application-level failure (non-zero `status_code` in a 2xx
body, or a missing/empty `cache_id`) raises a `ValueError` after the
transport succeeded and is never retried.  Returns the cache id or the
raised message, plus the number of transport attempts executed. -/
def run_pipeline (transport : Nat → Except String SubmitResponse) :
    Except String String × Nat :=
  let out := retry_request transport
  match out.result with
  | .error e => (.error e, out.attemptsMade)
  | .ok resp =>
    if resp.status_code ≠ 0 then
      (.error ("Pipeline submission failed with status_code: " ++
        toString resp.status_code), out.attemptsMade)
    else
      match resp.cache_id with
      | none => (.error "No cache_id returned from pipeline submission", out.attemptsMade)
      | some cid =>
        if cid = "" then
          (.error "No cache_id returned from pipeline submission", out.attemptsMade)
        else (.ok cid, out.attemptsMade)

/-- The 200-body of `GET /pipeline/status`. -/
structure PollResponse where
  pipeline_status : String
  error : Option String
deriving DecidableEq

/-- `wait_for_pipeline_completion` (process.py:620-720).  `polls i` is the
net outcome of the i-th poll iteration's `retry_request` (its inner retries
are not traced; no claim depends on them).  `fuel` bounds the unbounded
`while` loop; exhaustion is surfaced as a raised exception, which the caller
converts to an `error` outcome — it can never masquerade as a completed or
clean run.  Returns (outcome, polls executed, check counter); the `.ok`
payload is the `(final_status, error_message)` pair the Python function
returns, `.error` models an exception propagating to `process_pipeline`. -/
def wait_for (polls : Nat → Except String PollResponse) (c : Option Nat) :
    Nat → Nat → Nat → Except String (String × Option String) × Nat × Nat
  | 0, i, k => (.error "poll loop fuel exhausted", i, k)
  | fuel + 1, i, k =>
    -- line 639: `while not shutdown_event.is_set()`
    if flagAt c k then (.ok ("INTERRUPTED", some "Processing interrupted by user"), i, k + 1)
    else
      match polls i with
      | .error e =>
        -- lines 695-705: transport failure after retries; re-check the flag
        if flagAt c (k + 1) then
          (.ok ("INTERRUPTED", some "Processing interrupted by user"), i + 1, k + 2)
        else (.error e, i + 1, k + 2)
      | .ok resp =>
        if resp.pipeline_status = "SUCCESS" then
          if truthyStr resp.error then (.ok ("ERROR_WITH_SUCCESS", resp.error), i + 1, k + 1)
          else (.ok ("SUCCESS", resp.error), i + 1, k + 1)
        else if resp.pipeline_status = "SENT" then
          wait_for polls c fuel (i + 1) (k + 1)
        else (.ok (resp.pipeline_status, resp.error), i + 1, k + 1)

/-! ## Pipeline definitions and validation -/

structure DataManager where
  name : Option String
  orcid : Option String
deriving DecidableEq

/-- Parameters of a `dump_to_s3` step.  `pfx` models the YAML key named
"prefix" (missing key = `""`, matching `.get("prefix", "")`). -/
structure DumpParams where
  pfx : String
  data_manager : Option DataManager
  submission_ids : List String
deriving DecidableEq

structure Step where
  run : String
  parameters : Option DumpParams
deriving DecidableEq

structure PipelineSpec where
  title : String
  pipeline : List Step
deriving DecidableEq

structure PipeMeta where
  author_name : Option String
  author_orcid : Option String
  submission_ids : List String
deriving DecidableEq

def TEST_PFX : String := "EXCEL_BUG_TEST"

def DUMP_RUN : String := "bcodmo_pipeline_processors.dump_to_s3"

/-- Positions of the `dump_to_s3` steps (process.py:519-522). -/
def dumpIndices (steps : List Step) : List Nat :=
  (List.range steps.length).filter fun i => (steps.getD i ⟨"", none⟩).run = DUMP_RUN

/-- `validate_and_modify_pipeline_steps` (process.py:508-561): `.error` is a
raised `ValueError` (or the `KeyError` from indexing a missing "parameters"
dict at line 559); `.ok` carries the rewritten steps, the original output
location, and the extracted author/submission metadata. -/
def validate_and_modify_pipeline_steps (steps : List Step) (title : String) :
    Except String (List Step × String × PipeMeta) :=
  let dumps := dumpIndices steps
  if dumps.length = 0 then
    .error ("No dump_to_s3 step found in pipeline " ++ title)
  else if dumps.length > 1 then
    .error ("Multiple dump_to_s3 steps found in pipeline " ++ title)
  else if dumps.headD 0 ≠ steps.length - 1 then
    .error ("dump_to_s3 step is not the last step in pipeline " ++ title)
  else
    match (steps.getLastD ⟨"", none⟩).parameters with
    | none => .error "'parameters'"
    | some ps =>
      let meta : PipeMeta :=
        { author_name := ps.data_manager.bind (·.name)
          author_orcid := ps.data_manager.bind (·.orcid)
          submission_ids := ps.submission_ids }
      let newSteps := steps.dropLast ++
        [{ (steps.getLastD ⟨"", none⟩) with
           parameters := some { ps with pfx := TEST_PFX ++ "/" ++ title } }]
      .ok (newSteps, ps.pfx, meta)

/-! ## `process_pipeline` -/

/-- One work item from the task file.  (Further entry fields copied verbatim
into the result dict never influence control flow and are omitted.) -/
structure Entry where
  pipeline_name : Option String
  pipeline_spec : String
deriving DecidableEq

/-- The result dict built by `process_pipeline` (`none` = key absent;
`is_buggy` distinguishes absent / `None` / `True` / `False`). -/
structure ProcResult where
  pipeline_name : Option String
  status : String
  errors : List String
  author_name : Option String
  author_orcid : Option String
  submission_ids : List String
  pipeline_title : Option String
  original_pfx : Option String
  test_pfx : Option String
  cache_id : Option String
  pipeline_execution_status : Option String
  pipeline_reused_existing : Option Bool
  pipeline_error_message : Option String
  comparison : Option ComparisonResult
  preserve_missing_values : Option Bool
  is_buggy : Option (Option Bool)
  total_cell_differences : Option Nat
deriving DecidableEq

/-- Instrumentation of one `process_pipeline` call: how many submit-transport
attempts and poll iterations hit the remote execution service, and the
preserve-flag of each processing attempt executed (in order). -/
structure Trace where
  submits : Nat
  polls : Nat
  attempts : List Bool
deriving DecidableEq

def Trace.one (pmv : Bool) (s p : Nat) : Trace := ⟨s, p, [pmv]⟩

/-- The external world one processing attempt runs against. -/
structure AttemptWorld where
  spec : Except String PipelineSpec
  testListing : Except String Bool
  submit : Nat → Except String SubmitResponse
  polls : Nat → Except String PollResponse
  s3 : S3World

/-- `check_test_output_exists` (process.py:232-268): any exception is
swallowed and reported as "no existing output". -/
def check_test_output_exists (r : Except String Bool) : Bool :=
  match r with
  | .ok b => b
  | .error _ => false

def initResult (entry : Entry) : ProcResult :=
  { pipeline_name := entry.pipeline_name, status := "processing", errors := []
    author_name := none, author_orcid := none, submission_ids := []
    pipeline_title := none, original_pfx := none, test_pfx := none
    cache_id := none, pipeline_execution_status := none
    pipeline_reused_existing := none, pipeline_error_message := none
    comparison := none, preserve_missing_values := none
    is_buggy := none, total_cell_differences := none }

/-- The missing-values scan (process.py:1033-1048): some detailed comparison
that was not itself interrupted shows an empty original value against a
non-empty new value. -/
def scanNeedsRerun (cmp : ComparisonResult) : Bool :=
  cmp.detailed_differences.any fun d =>
    if d.errorField = some MSG_INTERRUPTED then false
    else d.cellDiffsField.any fun cd =>
      decide (cd.original_value = "" ∧ cd.new_value ≠ "")

/-- The header/interrupt scan over `detailed_differences`
(process.py:1056-1065), with the `break` on the first header mismatch:
returns (interrupted comparison seen, header mismatch seen, filename of the
mismatching file when found). -/
def scanHeaders : Bool → List CmpOutcome → Bool × Bool × Option String
  | accI, [] => (accI, false, none)
  | accI, d :: rest =>
    if d.errorField = some MSG_INTERRUPTED then scanHeaders true rest
    else if d.headersMatchField = false then (accI, true, some d.filenameField)
    else scanHeaders accI rest

/-- The classification chain of `process_pipeline` (process.py:1052-1096),
run on a comparison that was not interrupted at the top level. -/
def classify (cmp : ComparisonResult) (r : ProcResult) : ProcResult :=
  let s := scanHeaders false cmp.detailed_differences
  let hasIntr := s.1
  let hasHdr := s.2.1
  let r := match s.2.2 with
    | some fn => { r with errors := r.errors ++ ["Headers mismatch in file " ++ fn] }
    | none => r
  if hasIntr ∧ ¬hasHdr then
    { r with
      status := "interrupted", is_buggy := some none,
      errors := r.errors ++ ["Some file comparisons were interrupted"] }
  else if hasHdr then
    { r with status := "error", is_buggy := some none }
  else if cmp.files_with_differences > 0 then
    { r with
      status := "buggy", is_buggy := some (some true),
      total_cell_differences :=
        some (cmp.detailed_differences.foldl (fun s d => s + d.totalDiffsField) 0) }
  else
    { r with status := "not_buggy", is_buggy := some (some false) }

/-- The tail of `process_pipeline` shared by the reuse and fresh-run paths
(process.py:1020-1105): run the comparison, handle a top-level interruption,
run the missing-values rerun heuristic (line 1033 reads the shutdown flag
only when `pmv` is true, because Python's `and` short-circuits), then
classify.  `subs`/`pols` carry the network counts of the attempt so far. -/
def comparePhase (rerun : Option Nat → Nat → ProcResult × Trace × Nat)
    (s3 : S3World) (pmv : Bool) (r : ProcResult) (subs pols : Nat)
    (c : Option Nat) (k : Nat) : ProcResult × Trace × Nat :=
  let out := compare_csv_files s3 (TEST_PFX ++ "/" ++
    (r.pipeline_title.getD "")) (r.original_pfx.getD "") c k
  let cmp := out.1
  let k := out.2.2
  if cmp.error = some MSG_INTERRUPTED then
    ({ r with
        status := "interrupted",
        errors := r.errors ++ ["File comparison interrupted by user"],
        comparison := some cmp }, Trace.one pmv subs pols, k)
  else
    let finish : Nat → ProcResult × Trace × Nat := fun k =>
      let r := { r with comparison := some cmp, preserve_missing_values := some pmv }
      (classify cmp r, Trace.one pmv subs pols, k)
    if pmv then
      if flagAt c k then finish (k + 1)
      else if scanNeedsRerun cmp then
        let out := rerun c (k + 1)
        (out.1, ⟨subs + (out.2.1).submits, pols + (out.2.1).polls,
          pmv :: (out.2.1).attempts⟩, out.2.2)
      else finish (k + 1)
    else finish k

/-- One execution of the `process_pipeline` body (process.py:901-1105).
`rerun` is the continuation for the single recursive call at line 1048; it is
invoked (inside `comparePhase`) only under `pmv = true`. -/
def processBody (rerun : Option Nat → Nat → ProcResult × Trace × Nat)
    (w : AttemptWorld) (pmv : Bool) (entry : Entry) (fuel : Nat)
    (c : Option Nat) (k : Nat) : ProcResult × Trace × Nat :=
  -- line 903: check before starting
  if flagAt c k then
    ({ initResult entry with
        status := "skipped",
        errors := ["Processing interrupted before start"] }, Trace.one pmv 0 0, k + 1)
  else
    let k := k + 1
    let r0 := initResult entry
    match w.spec with
    | .error e =>
      -- download_pipeline_spec raised; caught by the handler at line 1098
      ({ r0 with status := "error", errors := r0.errors ++ [e], is_buggy := some none },
        Trace.one pmv 0 0, k)
    | .ok spec =>
      let title := spec.title
      let r1 := { r0 with pipeline_title := some title }
      match validate_and_modify_pipeline_steps spec.pipeline title with
      | .error e =>
        ({ r1 with status := "error", errors := r1.errors ++ [e], is_buggy := some none },
          Trace.one pmv 0 0, k)
      | .ok v =>
        let origPfx := v.2.1
        let meta := v.2.2
        let r2 := { r1 with
          original_pfx := some origPfx,
          test_pfx := some (TEST_PFX ++ "/" ++ title),
          author_name := meta.author_name, author_orcid := meta.author_orcid,
          submission_ids := meta.submission_ids }
        if check_test_output_exists w.testListing then
          let r3 := { r2 with
                      cache_id := some "REUSED_EXISTING_OUTPUT",
                      pipeline_execution_status := some "SUCCESS",
                      pipeline_reused_existing := some true }
          comparePhase rerun w.s3 pmv r3 0 0 c k
        else
          -- line 976: check before running the pipeline
          if flagAt c k then
            ({ r2 with
                status := "interrupted",
                errors := r2.errors ++ ["Processing interrupted before pipeline execution"] },
              Trace.one pmv 0 0, k + 1)
          else
            let k := k + 1
            let rp := run_pipeline w.submit
            let subs := rp.2
            match rp.1 with
            | .error e =>
              ({ r2 with status := "error", errors := r2.errors ++ [e], is_buggy := some none },
                Trace.one pmv subs 0, k)
            | .ok cid =>
              let r3 := { r2 with cache_id := some cid, pipeline_reused_existing := some false }
              let wf := wait_for w.polls c fuel 0 k
              let pols := wf.2.1
              let k := wf.2.2
              match wf.1 with
              | .error e =>
                ({ r3 with status := "error", errors := r3.errors ++ [e], is_buggy := some none },
                  Trace.one pmv subs pols, k)
              | .ok st =>
                let fstatus := st.1
                let emsg := st.2
                let r4 := { r3 with pipeline_execution_status := some fstatus }
                let r4 := if truthyStr emsg then
                    { r4 with
                      pipeline_error_message := emsg,
                      errors := r4.errors ++ ["Pipeline returned error: " ++ emsg.getD ""] }
                  else r4
                if fstatus = "INTERRUPTED" then
                  ({ r4 with status := "interrupted" }, Trace.one pmv subs pols, k)
                else if fstatus ≠ "SUCCESS" then
                  ({ r4 with
                      status := "error",
                      errors := r4.errors ++
                        [if fstatus = "ERROR_WITH_SUCCESS" then
                          "Pipeline returned SUCCESS but with error: " ++ emsg.getD ""
                         else "Pipeline execution failed with status: " ++ fstatus] },
                    Trace.one pmv subs pols, k)
                else comparePhase rerun w.s3 pmv r4 subs pols c k

/-- Placeholder continuation: `processBody` only invokes `rerun` under
`pmv = true`, so the `false` instantiation below never reaches it. -/
def noRerun (entry : Entry) : Option Nat → Nat → ProcResult × Trace × Nat :=
  fun _ k => (initResult entry, ⟨0, 0, []⟩, k)

/-- `process_pipeline` (process.py:901): the single-level recursion at line
1048 (`return process_pipeline(entry, preserve_missing_values=False)`) is
laid out explicitly — the rerun attempt runs with the preserve flag off and
has no further recursion.  `w` gives the external world per attempt, indexed
by the preserve flag the attempt runs with. -/
def process_pipeline (w : Bool → AttemptWorld) (entry : Entry) (fuel : Nat)
    (pmv : Bool) (c : Option Nat) (k : Nat) : ProcResult × Trace × Nat :=
  match pmv with
  | false => processBody (noRerun entry) (w false) false entry fuel c k
  | true =>
    processBody (fun c' k' => processBody (noRerun entry) (w false) false entry fuel c' k')
      (w true) true entry fuel c k

/-! ## `save_results` and the orchestrator's result collection -/

/-- Python `"HTTP/Network error" in str(e)` substring test. -/
def strContains (hay needle : String) : Bool :=
  decide (List.IsInfix needle.data hay.data)

/-- A result whose comparison (top level or any detailed entry) carries the
interrupted marker (process.py:1138-1146). -/
def comparisonInterrupted (r : ProcResult) : Bool :=
  match r.comparison with
  | none => false
  | some cmp =>
    decide (cmp.error = some MSG_INTERRUPTED) ||
      cmp.detailed_differences.any (fun d => decide (d.errorField = some MSG_INTERRUPTED))

/-- The summary dict persisted by `save_results` (process.py:1165-1196).
The `authors_with_buggy_pipelines` rollup is omitted: no claim concerns it
and it influences nothing else. -/
structure Summary where
  total_pipelines_expected : Nat
  total_pipelines_processed : Nat
  total_completed : Nat
  total_buggy_pipelines : Nat
  total_errors : Nat
  total_reused_existing_output : Nat
  total_newly_executed : Nat
  total_success_with_errors : Nat
  total_http_errors : Nat
  total_interrupted : Nat
  total_comparison_interrupted : Nat
  total_skipped : Nat
  was_interrupted : Bool
  buggy_pipelines : List ProcResult
  errors : List ProcResult
  interrupted_pipelines : List ProcResult
  all_results : List ProcResult
deriving DecidableEq

/-- `save_results` (process.py:1114-1203). -/
def save_results (results : List ProcResult) (total_expected : Nat) : Summary :=
  let actual_buggy := results.filter (fun r => decide (r.is_buggy = some (some true)))
  let errs := results.filter (fun r => decide (r.status = "error"))
  let interrupted := results.filter (fun r => decide (r.status = "interrupted"))
  let skipped := results.filter (fun r => decide (r.status = "skipped"))
  let reused := results.filter (fun r => decide (r.pipeline_reused_existing = some true))
  let swe := errs.filter (fun r => decide (r.pipeline_execution_status = some "ERROR_WITH_SUCCESS"))
  let herr := errs.filter (fun r => r.errors.any (fun e => strContains e "HTTP/Network error"))
  let cmpIntr := results.filter comparisonInterrupted
  { total_pipelines_expected := total_expected
    total_pipelines_processed := results.length
    total_completed := (results.filter (fun r =>
      decide (r.status ≠ "interrupted" ∧ r.status ≠ "skipped"))).length
    total_buggy_pipelines := actual_buggy.length
    total_errors := errs.length
    total_reused_existing_output := reused.length
    total_newly_executed := (results.filter (fun r =>
      decide (r.pipeline_reused_existing = some false ∧
        r.status ≠ "skipped" ∧ r.status ≠ "error"))).length
    total_success_with_errors := swe.length
    total_http_errors := herr.length
    total_interrupted := interrupted.length
    total_comparison_interrupted := cmpIntr.length
    total_skipped := skipped.length
    was_interrupted :=
      decide (total_expected ≠ results.length) ||
        decide (0 < interrupted.length) || decide (0 < cmpIntr.length)
    buggy_pipelines := actual_buggy
    errors := errs
    interrupted_pipelines := interrupted
    all_results := results }

/-- Everything one worker needs to process one WorkItem. -/
structure ItemEnv where
  world : Bool → AttemptWorld
  entry : Entry
  fuel : Nat
  cancelAt : Option Nat
  k0 : Nat

/-- `process_pipeline_with_index` (process.py:1108-1111): tags the result
with the item's submission index. -/
def process_pipeline_with_index (env : ItemEnv) (i : Nat) : Nat × ProcResult :=
  (i, (process_pipeline env.world env.entry env.fuel true env.cancelAt env.k0).1)

/-- The completion loop of `main` (process.py:1233-1269): `results` is
pre-allocated as `[None] * n`; as futures complete — in an arbitrary order
`order` — each worker's `(index, result)` pair is written into the slot named
by the returned index. -/
def collectResults (n : Nat) (envs : Nat → ItemEnv) (order : List Nat) :
    List (Option ProcResult) :=
  order.foldl (fun acc i =>
    let p := process_pipeline_with_index (envs i) i
    acc.set p.1 (some p.2)) (List.replicate n none)

/-! ## Claims -/

/-- C7: given a transport that always fails with a request/HTTP-transport
error, the submit call is attempted exactly `MAX_RETRIES = 5` times, with a
fixed `RETRY_DELAY = 1` second sleep between consecutive attempts, and then
raises the last exception; an application-level failure — a well-formed 2xx
body whose `status_code` is non-zero — is terminal after a single transport
call and is never retried. -/
theorem C7_retry_bound_and_app_failure_terminal :
    (∀ (errs : Nat → String) (transport : Nat → Except String SubmitResponse),
      (∀ a, transport a = .error (errs a)) →
      retry_request transport = ⟨.error (errs 5), 5, [1, 1, 1, 1]⟩) ∧
    (∀ (resp : SubmitResponse) (transport : Nat → Except String SubmitResponse),
      transport 1 = .ok resp → resp.status_code ≠ 0 →
      run_pipeline transport =
        (.error ("Pipeline submission failed with status_code: " ++
          toString resp.status_code), 1)) := by
  constructor
  · intro errs transport h
    have h5 : retry_from transport 5 = ⟨.error (errs 5), 5, []⟩ := by
      rw [retry_from, h 5]; simp [MAX_RETRIES]
    have h4 : retry_from transport 4 = ⟨.error (errs 5), 5, [1]⟩ := by
      rw [retry_from, h 4]; simp [MAX_RETRIES, RETRY_DELAY, h5]
    have h3 : retry_from transport 3 = ⟨.error (errs 5), 5, [1, 1]⟩ := by
      rw [retry_from, h 3]; simp [MAX_RETRIES, RETRY_DELAY, h4]
    have h2 : retry_from transport 2 = ⟨.error (errs 5), 5, [1, 1, 1]⟩ := by
      rw [retry_from, h 2]; simp [MAX_RETRIES, RETRY_DELAY, h3]
    have h1 : retry_from transport 1 = ⟨.error (errs 5), 5, [1, 1, 1, 1]⟩ := by
      rw [retry_from, h 1]; simp [MAX_RETRIES, RETRY_DELAY, h2]
    exact h1
  · intro resp transport htr hsc
    have h1 : retry_request transport = ⟨.ok resp, 1, []⟩ := by
      rw [retry_request, retry_from, htr]
    simp [run_pipeline, h1, hsc]

/-- C7 witness: a concrete always-failing transport is tried exactly 5 times
with four 1-second sleeps; a concrete application-level failure response is
terminal after one call. -/
theorem C7_witness :
    retry_request (fun _ => (.error "boom" : Except String SubmitResponse)) =
      ⟨.error "boom", 5, [1, 1, 1, 1]⟩ ∧
    run_pipeline (fun _ => .ok ⟨3, some "c"⟩) =
      (.error ("Pipeline submission failed with status_code: " ++
        toString (3 : Int)), 1) :=
  ⟨C7_retry_bound_and_app_failure_terminal.1 (fun _ => "boom") _ (fun _ => rfl),
   C7_retry_bound_and_app_failure_terminal.2 ⟨3, some "c"⟩ _ rfl (by decide)⟩

@[simp] theorem flagAt_none (k : Nat) : flagAt none k = false := rfl

/-- A pipeline whose dump-step positions are not exactly "one, at the end"
makes `validate_and_modify_pipeline_steps` raise. -/
theorem validate_err_of_bad_dump (steps : List Step) (title : String)
    (h : dumpIndices steps ≠ [steps.length - 1]) :
    ∃ e, validate_and_modify_pipeline_steps steps title = .error e := by
  unfold validate_and_modify_pipeline_steps
  match hd : dumpIndices steps with
  | [] => simp
  | [d] =>
    have hne : d ≠ steps.length - 1 := by
      intro he; exact h (by rw [hd, he])
    simp [hne]
  | d1 :: d2 :: rest => simp

/-- C8: for a WorkItem whose pipeline definition does not have exactly one
dump step as its last step (none, several, or not last), processing fails
fast: `validate_and_modify_pipeline_steps` raises, the item's result status
is `error`, and the instrumentation trace shows zero submit attempts and
zero polls — no call to the remote execution service is made (and no retry:
the attempt list is just this one attempt). -/
theorem C8_bad_dump_step_errors_without_network :
    ∀ (w : Bool → AttemptWorld) (entry : Entry) (fuel : Nat) (pmv : Bool)
      (ps : PipelineSpec),
      (w pmv).spec = .ok ps →
      dumpIndices ps.pipeline ≠ [ps.pipeline.length - 1] →
      (∃ e, validate_and_modify_pipeline_steps ps.pipeline ps.title = .error e) ∧
      (process_pipeline w entry fuel pmv none 0).1.status = "error" ∧
      (process_pipeline w entry fuel pmv none 0).2.1 = ⟨0, 0, [pmv]⟩ := by
  intro w entry fuel pmv ps hspec hbad
  obtain ⟨e, hval⟩ := validate_err_of_bad_dump ps.pipeline ps.title hbad
  refine ⟨⟨e, hval⟩, ?_⟩
  cases pmv <;>
    simp [process_pipeline, processBody, hspec, hval, Trace.one]

/-- C8 witness: a concrete world whose pipeline has no dump step at all. -/
theorem C8_witness :
    (let w : Bool → AttemptWorld := fun _ =>
      { spec := .ok ⟨"t", [⟨"load", none⟩]⟩
        testListing := .ok false
        submit := fun _ => .error "unused"
        polls := fun _ => .error "unused"
        s3 := ⟨fun _ => .error "x", fun _ => .error "x", fun _ => .error "x"⟩ }
     (process_pipeline w ⟨some "p", "spec.yaml"⟩ 0 true none 0).1.status = "error" ∧
     (process_pipeline w ⟨some "p", "spec.yaml"⟩ 0 true none 0).2.1 = ⟨0, 0, [true]⟩) := by
  have h := C8_bad_dump_step_errors_without_network
    (fun _ =>
      { spec := .ok ⟨"t", [⟨"load", none⟩]⟩
        testListing := .ok false
        submit := fun _ => .error "unused"
        polls := fun _ => .error "unused"
        s3 := ⟨fun _ => .error "x", fun _ => .error "x", fun _ => .error "x"⟩ })
    ⟨some "p", "spec.yaml"⟩ 0 true ⟨"t", [⟨"load", none⟩]⟩ rfl (by decide)
  exact ⟨h.2.1, h.2.2⟩

/-- Every return path of one `processBody` execution records exactly this
attempt's preserve flag, except the rerun path, which prepends it to the
rerun's attempt list. -/
theorem comparePhase_attempts (rerun : Option Nat → Nat → ProcResult × Trace × Nat)
    (s3 : S3World) (pmv : Bool) (r : ProcResult) (subs pols : Nat)
    (c : Option Nat) (k : Nat) (L : List Bool)
    (h : ∀ c' k', ((rerun c' k').2.1).attempts = L) :
    ((comparePhase rerun s3 pmv r subs pols c k).2.1).attempts = [pmv] ∨
    ((comparePhase rerun s3 pmv r subs pols c k).2.1).attempts = pmv :: L := by
  unfold comparePhase
  rcases hout : compare_csv_files s3 (TEST_PFX ++ "/" ++ r.pipeline_title.getD "")
      (r.original_pfx.getD "") c k with ⟨cmp, dl, k2⟩
  simp only [hout]
  repeat' split
  all_goals simp [Trace.one, h]

theorem processBody_attempts (rerun : Option Nat → Nat → ProcResult × Trace × Nat)
    (w : AttemptWorld) (pmv : Bool) (entry : Entry) (fuel : Nat)
    (c : Option Nat) (k : Nat) (L : List Bool)
    (h : ∀ c' k', ((rerun c' k').2.1).attempts = L) :
    ((processBody rerun w pmv entry fuel c k).2.1).attempts = [pmv] ∨
    ((processBody rerun w pmv entry fuel c k).2.1).attempts = pmv :: L := by
  simp only [processBody]
  repeat' split
  all_goals first
    | (left; simp [Trace.one])
    | exact comparePhase_attempts rerun w.s3 pmv _ _ _ c _ L h

/-- C9: the comparison-triggered rerun heuristic is a single-level retry.
Processing a WorkItem executes either exactly one attempt (with the given
preserve flag) or — only when the flag was on — one attempt followed by one
reprocessing attempt with the flag off; the reprocessed attempt never
recurses further, whatever its outcome.  In particular `process_pipeline`
always records at most two attempts, and a `pmv = false` run records exactly
one, so processing terminates (the model is a total function). -/
theorem C9_rerun_is_single_level :
    ∀ (w : Bool → AttemptWorld) (entry : Entry) (fuel : Nat) (pmv : Bool)
      (c : Option Nat) (k : Nat),
      ((process_pipeline w entry fuel pmv c k).2.1).attempts = [pmv ] ∨
      (pmv = true ∧
        ((process_pipeline w entry fuel pmv c k).2.1).attempts = [true, false]) := by
  intro w entry fuel pmv c k
  cases pmv
  · have h := processBody_attempts (noRerun entry) (w false) false entry fuel c k []
      (fun _ _ => rfl)
    rcases h with h | h <;> exact Or.inl h
  · have hinner : ∀ c' k',
        ((processBody (noRerun entry) (w false) false entry fuel c' k').2.1).attempts =
          [false] := by
      intro c' k'
      have h := processBody_attempts (noRerun entry) (w false) false entry fuel c' k' []
        (fun _ _ => rfl)
      rcases h with h | h <;> exact h
    have h := processBody_attempts
      (fun c' k' => processBody (noRerun entry) (w false) false entry fuel c' k')
      (w true) true entry fuel c k [false] (fun c' k' => hinner c' k')
    rcases h with h | h
    · exact Or.inl h
    · exact Or.inr ⟨rfl, h⟩

/-- The skipped-slot dict `main` writes for never-started items
(process.py:1313-1321). -/
def skippedResult : ProcResult :=
  { initResult ⟨some "p", "s"⟩ with
    status := "skipped",
    errors := ["Pipeline was not processed due to interruption"] }

/-- C3 counterexample: a run whose single WorkItem ended `skipped` (its slot
filled by `main`, so exactly as many results as inputs exist).  The claim
says `was_interrupted` must then be true (an item is in category skipped),
but `save_results` computes it false: skipped items by themselves never set
`was_interrupted`. -/
theorem C3_counterexample :
    (save_results [skippedResult] 1).total_skipped = 1 ∧
    (save_results [skippedResult] 1).total_pipelines_expected =
      (save_results [skippedResult] 1).total_pipelines_processed ∧
    (save_results [skippedResult] 1).was_interrupted = false :=
  ⟨rfl, rfl, rfl⟩

/-- C3 (amended): for results whose statuses lie in the five categories and
whose `is_buggy` field is `True` exactly on status "buggy" (as
`process_pipeline` and `main` produce them), the five per-category counts sum
to the number of results (= the number of WorkItems whenever every slot is
filled); and `was_interrupted` is true iff fewer results exist than expected,
or some result has status `interrupted`, or some result's comparison carries
the interrupted-comparison marker — a `skipped` item alone does not set it,
and an `error` item with an interrupted comparison does. -/
theorem C3_summary_counts_and_was_interrupted :
    ∀ (results : List ProcResult) (expected : Nat),
      (∀ r ∈ results, r.status = "buggy" ∨ r.status = "not_buggy" ∨
        r.status = "error" ∨ r.status = "interrupted" ∨ r.status = "skipped") →
      (∀ r ∈ results, r.status = "buggy" ↔ r.is_buggy = some (some true)) →
      ((save_results results expected).total_buggy_pipelines +
        results.countP (fun r => decide (r.status = "not_buggy")) +
        (save_results results expected).total_errors +
        (save_results results expected).total_interrupted +
        (save_results results expected).total_skipped = results.length) ∧
      ((save_results results expected).was_interrupted = true ↔
        (expected ≠ results.length ∨ (∃ r ∈ results, r.status = "interrupted") ∨
          (∃ r ∈ results, comparisonInterrupted r = true))) := by
  intro results expected h5 hb
  have hlen : ∀ (p : ProcResult → Bool),
      (results.filter p).length = results.countP p :=
    fun p => (List.countP_eq_length_filter p results).symm
  constructor
  · have hbc : results.countP (fun r => decide (r.is_buggy = some (some true))) =
        results.countP (fun r => decide (r.status = "buggy")) := by
      refine List.countP_congr (fun r hr => ?_)
      simp only [decide_eq_true_eq]
      exact (hb r hr).symm
    have key : ∀ (l : List ProcResult),
        (∀ r ∈ l, r.status = "buggy" ∨ r.status = "not_buggy" ∨ r.status = "error" ∨
          r.status = "interrupted" ∨ r.status = "skipped") →
        l.countP (fun r => decide (r.status = "buggy")) +
        l.countP (fun r => decide (r.status = "not_buggy")) +
        l.countP (fun r => decide (r.status = "error")) +
        l.countP (fun r => decide (r.status = "interrupted")) +
        l.countP (fun r => decide (r.status = "skipped")) = l.length := by
      intro l
      induction l with
      | nil => intro _; simp
      | cons r rs ih =>
        intro hl
        have hr := hl r (by simp)
        have ihs := ih (fun x hx => hl x (by simp [hx]))
        simp only [List.countP_cons, List.length_cons]
        rcases hr with h | h | h | h | h <;> simp [h] <;> omega
    simp only [save_results, hlen, hbc]
    exact key results h5
  · simp only [save_results, hlen]
    simp only [Bool.or_eq_true, decide_eq_true_eq, List.countP_pos_iff,
      decide_eq_true_eq]
    exact or_assoc

/-- C3 witness for the amended invariant: a clean one-item run — the counts
sum to 1 and `was_interrupted` is false with no interruption signal present. -/
theorem C3_witness :
    ((save_results [{ initResult ⟨some "p", "s"⟩ with
        status := "buggy", is_buggy := some (some true) }] 1).total_buggy_pipelines +
      [{ initResult ⟨some "p", "s"⟩ with
        status := "buggy", is_buggy := some (some true) }].countP
          (fun r => decide (r.status = "not_buggy")) +
      (save_results [{ initResult ⟨some "p", "s"⟩ with
        status := "buggy", is_buggy := some (some true) }] 1).total_errors +
      (save_results [{ initResult ⟨some "p", "s"⟩ with
        status := "buggy", is_buggy := some (some true) }] 1).total_interrupted +
      (save_results [{ initResult ⟨some "p", "s"⟩ with
        status := "buggy", is_buggy := some (some true) }] 1).total_skipped = 1) ∧
    ((save_results [{ initResult ⟨some "p", "s"⟩ with
        status := "buggy", is_buggy := some (some true) }] 1).was_interrupted = true ↔
      (1 ≠ 1 ∨ (∃ r ∈ [{ initResult ⟨some "p", "s"⟩ with
        status := "buggy", is_buggy := some (some true) }], r.status = "interrupted") ∨
        (∃ r ∈ [{ initResult ⟨some "p", "s"⟩ with
          status := "buggy", is_buggy := some (some true) }],
          comparisonInterrupted r = true))) := by
  have h := C3_summary_counts_and_was_interrupted
    [{ initResult ⟨some "p", "s"⟩ with status := "buggy", is_buggy := some (some true) }] 1
    (by intro r hr; simp at hr; subst hr; left; rfl)
    (by intro r hr; simp at hr; subst hr; simp)
  simpa using h

/-- Folding index-addressed writes never changes the list length. -/
theorem foldl_set_length (g : Nat → Option ProcResult) :
    ∀ (order : List Nat) (acc : List (Option ProcResult)),
      (order.foldl (fun acc j => acc.set j (g j)) acc).length = acc.length := by
  intro order
  induction order with
  | nil => intro acc; rfl
  | cons j rest ih => intro acc; simp [ih]

/-- Slots whose index never completes are untouched by the collection fold. -/
theorem foldl_set_not_mem (g : Nat → Option ProcResult) :
    ∀ (order : List Nat) (i : Nat), i ∉ order →
      ∀ (acc : List (Option ProcResult)),
        (order.foldl (fun acc j => acc.set j (g j)) acc)[i]? = acc[i]? := by
  intro order
  induction order with
  | nil => intro i _ acc; rfl
  | cons j rest ih =>
    intro i hi acc
    have hij : i ≠ j := fun he => hi (by simp [he])
    have hrest : i ∉ rest := fun hr => hi (by simp [hr])
    simp only [List.foldl_cons]
    rw [ih i hrest, List.getElem?_set_ne (Ne.symm hij)]

/-- Any completed index holds its own worker's value after the fold,
no matter where in the completion order it finished. -/
theorem foldl_set_mem (g : Nat → Option ProcResult) :
    ∀ (order : List Nat) (i : Nat), i ∈ order →
      ∀ (acc : List (Option ProcResult)), i < acc.length →
        (order.foldl (fun acc j => acc.set j (g j)) acc)[i]? = some (g i) := by
  intro order
  induction order with
  | nil => intro i hi; exact absurd hi (by simp)
  | cons j rest ih =>
    intro i hi acc hlen
    by_cases hr : i ∈ rest
    · simp only [List.foldl_cons]
      exact ih i hr _ (by simpa using hlen)
    · have hij : i = j := by
        rcases List.mem_cons.mp hi with h | h
        · exact h
        · exact absurd h hr
      subst hij
      simp only [List.foldl_cons]
      rw [foldl_set_not_mem g rest i hr]
      simp [List.getElem?_set_self, hlen]

/-- C2: for N WorkItems processed with any worker-pool width W with
1 ≤ W ≤ N, and any completion order (a permutation of the indices — the pool
width only influences which permutation occurs), the i-th slot of the final
result list holds exactly the result of processing the i-th input WorkItem. -/
theorem C2_order_preservation :
    ∀ (n W : Nat) (envs : Nat → ItemEnv) (order : List Nat) (i : Nat),
      1 ≤ W → W ≤ n → order.Perm (List.range n) → i < n →
      (collectResults n envs order)[i]? =
        some (some ((process_pipeline (envs i).world (envs i).entry (envs i).fuel
          true (envs i).cancelAt (envs i).k0).1)) := by
  intro n W envs order i _hW1 _hWn hperm hi
  have hmem : i ∈ order := hperm.mem_iff.mpr (List.mem_range.mpr hi)
  have := foldl_set_mem
    (fun j => some ((process_pipeline (envs j).world (envs j).entry (envs j).fuel
      true (envs j).cancelAt (envs j).k0).1))
    order i hmem (List.replicate n none) (by simpa using hi)
  simpa [collectResults, process_pipeline_with_index] using this

/-- A minimal work-item environment used to exercise the orchestration
theorems on concrete data. -/
def trivEnv : ItemEnv :=
  { world := fun _ =>
      { spec := .error "no spec"
        testListing := .ok false
        submit := fun _ => .error "x"
        polls := fun _ => .error "x"
        s3 := ⟨fun _ => .error "x", fun _ => .error "x", fun _ => .error "x"⟩ }
    entry := ⟨none, "s"⟩
    fuel := 0
    cancelAt := none
    k0 := 0 }

/-- C2 witness: two items, pool width 1, completion order reversed — slot 0
still holds item 0's result. -/
theorem C2_witness :
    (collectResults 2 (fun _ => trivEnv) [1, 0])[0]? =
      some (some ((process_pipeline trivEnv.world trivEnv.entry trivEnv.fuel
        true trivEnv.cancelAt trivEnv.k0).1)) :=
  C2_order_preservation 2 1 (fun _ => trivEnv) [1, 0] 0
    (by decide) (by decide) (by decide) (by decide)

/-- With the flag never set, a row loop appends every row's entries and
advances the counter by one per checkpoint row. -/
theorem cellLoop_none (step : Nat → List CellDiff) :
    ∀ (l : List Nat) (k : Nat) (acc : List CellDiff),
      cellLoop none step l k acc =
        (l.foldl (fun a i => a ++ step i) acc,
         k + l.countP (fun i => decide (i % 100 = 0)), false) := by
  intro l
  induction l with
  | nil => intro k acc; simp [cellLoop]
  | cons i rest ih =>
    intro k acc
    by_cases h : i % 100 = 0 <;>
      simp [cellLoop, h, ih, List.countP_cons] <;> omega

/-- Membership in an append-accumulating fold. -/
theorem mem_foldl_append (step : Nat → List CellDiff) :
    ∀ (l : List Nat) (acc : List CellDiff) (d : CellDiff),
      (d ∈ l.foldl (fun a i => a ++ step i) acc ↔ d ∈ acc ∨ ∃ i ∈ l, d ∈ step i) := by
  intro l
  induction l with
  | nil => intro acc d; simp
  | cons i rest ih =>
    intro acc d
    rw [List.foldl_cons, ih]
    simp [List.mem_append]
    tauto

/-- The overlapping-range diffs of one uninterrupted comparison. -/
def overlapDiffs (dfN dfO : DataFrame) (m : Nat) : List CellDiff :=
  (List.range m).foldl
    (fun a i => a ++ rowCellDiffs dfN.cols (dfN.row i) (dfO.row i) i) []

/-- Uninterrupted comparison, new file strictly longer: the main loop covers
the original's rows and the extra-row loop appends sentinel entries for every
extra new row. -/
theorem compare_none_newExtra (dfN dfO : DataFrame) (fn np op : String) (k0 : Nat)
    (hcols : dfN.cols = dfO.cols) (hlt : dfO.rows.length < dfN.rows.length) :
    (compare_csv_contents (.ok dfN) (.ok dfO) fn np op none k0).1 =
      .full (mkCmp fn np op (decide (dfN.shape = dfO.shape)) dfN.shape dfO.shape
        ((rangeFromTo dfO.rows.length dfN.rows.length).foldl
          (fun a i => a ++ extraNewRowDiffs dfN i)
          (overlapDiffs dfN dfO dfO.rows.length))
        none) := by
  have hmin : min dfN.rows.length dfO.rows.length = dfO.rows.length :=
    Nat.min_eq_right (Nat.le_of_lt hlt)
  simp [compare_csv_contents, compareRows, download_csv, hcols, hmin, cellLoop_none,
    overlapDiffs, hlt]

/-- Uninterrupted comparison with equal row counts: just the overlap. -/
theorem compare_none_eqRows (dfN dfO : DataFrame) (fn np op : String) (k0 : Nat)
    (hcols : dfN.cols = dfO.cols) (heq : dfN.rows.length = dfO.rows.length) :
    (compare_csv_contents (.ok dfN) (.ok dfO) fn np op none k0).1 =
      .full (mkCmp fn np op (decide (dfN.shape = dfO.shape)) dfN.shape dfO.shape
        (overlapDiffs dfN dfO dfO.rows.length) none) := by
  have hmin : min dfN.rows.length dfO.rows.length = dfO.rows.length :=
    Nat.min_eq_right (Nat.le_of_eq heq.symm)
  simp [compare_csv_contents, compareRows, download_csv, hcols, hmin, cellLoop_none,
    overlapDiffs, heq]

theorem rowCellDiffs_row (cols nr orr : List String) (i : Nat) (d : CellDiff)
    (h : d ∈ rowCellDiffs cols nr orr i) : d.row = i := by
  rw [rowCellDiffs, List.mem_filterMap] at h
  obtain ⟨a, _, hd⟩ := h
  by_cases hne : a.2.1 ≠ a.2.2
  · rw [if_pos hne] at hd
    cases hd; rfl
  · rw [if_neg hne] at hd
    exact absurd hd (by simp)

theorem extraNewRowDiffs_mem (df : DataFrame) (i : Nat) (d : CellDiff)
    (h : d ∈ extraNewRowDiffs df i) :
    d.row = i ∧ d.original_value = "ROW_NOT_IN_ORIGINAL" := by
  rw [extraNewRowDiffs, List.mem_map] at h
  obtain ⟨a, _, hd⟩ := h
  cases hd; exact ⟨rfl, rfl⟩

theorem extraNewRowDiffs_length (df : DataFrame) (i : Nat)
    (h : (df.row i).length = df.cols.length) :
    (extraNewRowDiffs df i).length = df.cols.length := by
  simp [extraNewRowDiffs, h]

theorem overlapDiffs_row_lt (dfN dfO : DataFrame) (m : Nat) (d : CellDiff)
    (h : d ∈ overlapDiffs dfN dfO m) : d.row < m := by
  rw [overlapDiffs, mem_foldl_append] at h
  rcases h with h | ⟨i, hi, hd⟩
  · simp at h
  · rw [rowCellDiffs_row _ _ _ _ _ hd]
    exact List.mem_range.mp hi

theorem foldl_append_congr (step1 step2 : Nat → List CellDiff) :
    ∀ (l : List Nat) (acc : List CellDiff), (∀ i ∈ l, step1 i = step2 i) →
      l.foldl (fun a i => a ++ step1 i) acc =
        l.foldl (fun a i => a ++ step2 i) acc := by
  intro l
  induction l with
  | nil => intro acc _; rfl
  | cons i rest ih =>
    intro acc h
    simp only [List.foldl_cons]
    rw [h i (by simp), ih _ (fun j hj => h j (by simp [hj]))]

/-- C4 counterexample: comparing a 3-row file against a 5-row file with TWO
columns yields 4 sentinel-tagged entries, not "exactly 2": the extra-row
loop emits one `ROW_NOT_IN_ORIGINAL` entry per column of each extra row. -/
theorem C4_counterexample :
    ((compare_csv_contents
        (.ok ⟨["a", "b"], [["1", "1"], ["2", "2"], ["3", "3"], ["4", "4"], ["5", "5"]]⟩)
        (.ok ⟨["a", "b"], [["1", "1"], ["2", "2"], ["3", "3"]]⟩)
        "f.csv" "n/f.csv" "o/f.csv" none 0).1.cellDiffsField.filter
          (fun d => decide (d.original_value = "ROW_NOT_IN_ORIGINAL"))).length = 4 ∧
    ((compare_csv_contents
        (.ok ⟨["a", "b"], [["1", "1"], ["2", "2"], ["3", "3"], ["4", "4"], ["5", "5"]]⟩)
        (.ok ⟨["a", "b"], [["1", "1"], ["2", "2"], ["3", "3"]]⟩)
        "f.csv" "n/f.csv" "o/f.csv" none 0).1.cellDiffsField.filter
          (fun d => decide (d.original_value = "ROW_NOT_IN_ORIGINAL"))).length ≠ 2 := by
  decide

/-- C4 (amended): comparing a 5-row new file against a 3-row original (same
headers, rectangular new file, no interruption) does not short-circuit: the
result completes with no error, the entries at rows ≥ 3 are exactly the
sentinel-tagged extra-row entries — one per column for each of the 2 extra
rows, so `2 * C` entries in total, `C` the column count (the claim's
"exactly 2" holds only for a single-column file) — and the entries at rows
< 3 are exactly the cell-by-cell differences of the overlapping range, i.e.
what comparing the 3-row truncation yields. -/
theorem C4_extra_rows_per_column :
    ∀ (cols : List String) (rowsN rowsO : List (List String)) (fn np op : String),
      rowsN.length = 5 → rowsO.length = 3 →
      (∀ r ∈ rowsN, r.length = cols.length) →
      ∃ c : ContentComparison,
        (compare_csv_contents (.ok ⟨cols, rowsN⟩) (.ok ⟨cols, rowsO⟩)
          fn np op none 0).1 = .full c ∧
        c.error = none ∧
        (c.cell_differences.filter (fun d => decide (3 ≤ d.row))).length =
          2 * cols.length ∧
        (∀ d ∈ c.cell_differences, 3 ≤ d.row →
          d.original_value = "ROW_NOT_IN_ORIGINAL") ∧
        c.cell_differences.filter (fun d => decide (d.row < 3)) =
          ((compare_csv_contents (.ok ⟨cols, rowsN.take 3⟩) (.ok ⟨cols, rowsO⟩)
            fn np op none 0).1).cellDiffsField := by
  intro cols rowsN rowsO fn np op h5 h3 hwf
  have hmain := compare_none_newExtra ⟨cols, rowsN⟩ ⟨cols, rowsO⟩ fn np op 0 rfl
    (by simp [h5, h3])
  simp only [h5, h3] at hmain
  have hr : rangeFromTo 3 5 = [3, 4] := rfl
  rw [hr] at hmain
  simp only [List.foldl_cons, List.foldl_nil] at hmain
  refine ⟨_, hmain, rfl, ?_, ?_, ?_⟩
  · -- count of entries at rows ≥ 3
    show ((((overlapDiffs ⟨cols, rowsN⟩ ⟨cols, rowsO⟩ 3 ++
        extraNewRowDiffs ⟨cols, rowsN⟩ 3) ++ extraNewRowDiffs ⟨cols, rowsN⟩ 4).filter
          (fun d => decide (3 ≤ d.row))).length) = 2 * cols.length
    rw [List.filter_append, List.filter_append]
    rw [List.filter_eq_nil_iff.mpr (fun d hd => by
      have := overlapDiffs_row_lt _ _ _ _ hd
      simp
      omega)]
    rw [List.filter_eq_self.mpr (fun d hd => by
      have := (extraNewRowDiffs_mem _ _ _ hd).1
      simp [this])]
    rw [List.filter_eq_self.mpr (fun d hd => by
      have := (extraNewRowDiffs_mem _ _ _ hd).1
      simp [this])]
    have hrow3 : ((⟨cols, rowsN⟩ : DataFrame).row 3).length = cols.length := by
      apply hwf
      show rowsN.getD 3 [] ∈ rowsN
      rw [List.getD_eq_getElem rowsN [] (by omega)]
      exact List.getElem_mem _
    have hrow4 : ((⟨cols, rowsN⟩ : DataFrame).row 4).length = cols.length := by
      apply hwf
      show rowsN.getD 4 [] ∈ rowsN
      rw [List.getD_eq_getElem rowsN [] (by omega)]
      exact List.getElem_mem _
    simp only [List.nil_append, List.length_append,
      extraNewRowDiffs_length _ _ hrow3, extraNewRowDiffs_length _ _ hrow4]
    omega
  · -- rows ≥ 3 are sentinel entries
    intro d hd hge
    simp only [mkCmp] at hd
    rw [List.mem_append] at hd
    rcases hd with hd | hd
    · rw [List.mem_append] at hd
      rcases hd with hd | hd
      · have := overlapDiffs_row_lt _ _ _ _ hd
        omega
      · exact (extraNewRowDiffs_mem _ _ _ hd).2
    · exact (extraNewRowDiffs_mem _ _ _ hd).2
  · -- rows < 3 are the overlap = the truncated comparison
    have htr := compare_none_eqRows ⟨cols, rowsN.take 3⟩ ⟨cols, rowsO⟩ fn np op 0 rfl
      (by simp [h3, h5])
    rw [htr]
    show (((overlapDiffs ⟨cols, rowsN⟩ ⟨cols, rowsO⟩ 3 ++
        extraNewRowDiffs ⟨cols, rowsN⟩ 3) ++ extraNewRowDiffs ⟨cols, rowsN⟩ 4).filter
          (fun d => decide (d.row < 3))) =
      (CmpOutcome.full (mkCmp fn np op _ _ _
        (overlapDiffs ⟨cols, rowsN.take 3⟩ ⟨cols, rowsO⟩ rowsO.length) none)).cellDiffsField
    rw [List.filter_append, List.filter_append]
    rw [List.filter_eq_self.mpr (fun d hd => by
      have := overlapDiffs_row_lt _ _ _ _ hd
      simpa)]
    rw [List.filter_eq_nil_iff.mpr (fun d hd => by
      have := (extraNewRowDiffs_mem _ _ _ hd).1
      simp [this])]
    rw [List.filter_eq_nil_iff.mpr (fun d hd => by
      have := (extraNewRowDiffs_mem _ _ _ hd).1
      simp [this])]
    rw [List.append_nil, List.append_nil]
    show overlapDiffs ⟨cols, rowsN⟩ ⟨cols, rowsO⟩ 3 =
      overlapDiffs ⟨cols, rowsN.take 3⟩ ⟨cols, rowsO⟩ rowsO.length
    rw [h3, overlapDiffs, overlapDiffs]
    apply foldl_append_congr
    intro i hi
    have hi3 : i < 3 := List.mem_range.mp hi
    show rowCellDiffs cols (rowsN.getD i []) _ i =
      rowCellDiffs cols ((rowsN.take 3).getD i []) _ i
    rw [List.getD_eq_getElem?_getD, List.getD_eq_getElem?_getD,
      List.getElem?_take_of_lt hi3]

/-- C4 witness: a concrete single-column 5-vs-3-row comparison. -/
theorem C4_witness :
    ∃ c : ContentComparison,
      (compare_csv_contents (.ok ⟨["a"], [["1"], ["2"], ["3"], ["4"], ["5"]]⟩)
        (.ok ⟨["a"], [["1"], ["2"], ["9"]]⟩) "f.csv" "n" "o" none 0).1 = .full c ∧
      c.error = none ∧
      (c.cell_differences.filter (fun d => decide (3 ≤ d.row))).length =
        2 * (["a"] : List String).length ∧
      (∀ d ∈ c.cell_differences, 3 ≤ d.row →
        d.original_value = "ROW_NOT_IN_ORIGINAL") ∧
      c.cell_differences.filter (fun d => decide (d.row < 3)) =
        ((compare_csv_contents
          (.ok ⟨["a"], ([["1"], ["2"], ["3"], ["4"], ["5"]] : List (List String)).take 3⟩)
          (.ok ⟨["a"], [["1"], ["2"], ["9"]]⟩) "f.csv" "n" "o" none 0).1).cellDiffsField :=
  C4_extra_rows_per_column ["a"] [["1"], ["2"], ["3"], ["4"], ["5"]]
    [["1"], ["2"], ["9"]] "f.csv" "n" "o" rfl rfl (by decide)

/-- In the header/interrupt scan, a header-mismatch entry that is not itself
marked interrupted is always found (the `continue` only skips
interrupted-marked entries). -/
theorem scanHeaders_finds :
    ∀ (l : List CmpOutcome) (a : Bool),
      (∃ d ∈ l, d.headersMatchField = false ∧ d.errorField ≠ some MSG_INTERRUPTED) →
      (scanHeaders a l).2.1 = true := by
  intro l
  induction l with
  | nil => intro a h; simp at h
  | cons d rest ih =>
    intro a h
    by_cases he : d.errorField = some MSG_INTERRUPTED
    · have hrest : ∃ x ∈ rest, x.headersMatchField = false ∧
          x.errorField ≠ some MSG_INTERRUPTED := by
        obtain ⟨x, hx, hx1, hx2⟩ := h
        rcases List.mem_cons.mp hx with rfl | hx
        · exact absurd he hx2
        · exact ⟨x, hx, hx1, hx2⟩
      simp only [scanHeaders, if_pos he]
      exact ih true hrest
    · by_cases hm : d.headersMatchField = false
      · simp [scanHeaders, he, hm]
      · have hrest : ∃ x ∈ rest, x.headersMatchField = false ∧
            x.errorField ≠ some MSG_INTERRUPTED := by
          obtain ⟨x, hx, hx1, hx2⟩ := h
          rcases List.mem_cons.mp hx with rfl | hx
          · exact absurd hx1 hm
          · exact ⟨x, hx, hx1, hx2⟩
        simp only [scanHeaders, if_neg he, if_neg hm]
        exact ih a hrest

/-- A comparison containing a header-mismatch detail (not itself interrupted)
is classified `error`, with `is_buggy = None` — never `buggy`/`not_buggy`. -/
theorem classify_header_mismatch (cmp : ComparisonResult) (r : ProcResult)
    (h : ∃ d ∈ cmp.detailed_differences,
      d.headersMatchField = false ∧ d.errorField ≠ some MSG_INTERRUPTED) :
    (classify cmp r).status = "error" ∧ (classify cmp r).is_buggy = some none := by
  have hh := scanHeaders_finds cmp.detailed_differences false h
  unfold classify
  rcases hs : scanHeaders false cmp.detailed_differences with ⟨hi, hh2, fn⟩
  rw [hs] at hh
  simp only at hh
  subst hh
  cases fn <;> simp

/-- C6: if the column headers of the two files differ (and the comparison is
not interrupted), `compare_csv_contents` returns `headers_match = false`, an
empty `cell_differences` list, and the header error — even though cell
values might otherwise have matched; and at the WorkItem level the
classification chain marks a comparison containing such a file `error` (with
`is_buggy = None`), never `buggy` or `not_buggy`. -/
theorem C6_header_mismatch_precedence :
    (∀ (dfN dfO : DataFrame) (fn np op : String) (k0 : Nat),
      dfN.cols ≠ dfO.cols →
      (compare_csv_contents (.ok dfN) (.ok dfO) fn np op none k0).1 =
        .full { filename := fn, new_path := np, original_path := op,
                headers_match := false, shape_match := true,
                cell_differences := [],
                new_shape := dfN.shape, original_shape := dfO.shape,
                error := some "Headers do not match",
                total_differences := none,
                new_headers := some dfN.cols,
                original_headers := some dfO.cols }) ∧
    (∀ (cmp : ComparisonResult) (r : ProcResult),
      (∃ d ∈ cmp.detailed_differences,
        d.headersMatchField = false ∧ d.errorField ≠ some MSG_INTERRUPTED) →
      (classify cmp r).status = "error" ∧ (classify cmp r).is_buggy = some none) := by
  constructor
  · intro dfN dfO fn np op k0 h
    simp [compare_csv_contents, compareRows, download_csv, h]
  · exact classify_header_mismatch

/-- A concrete header-mismatch detail used by the C6 witness. -/
def hdrCmp : ContentComparison :=
  { filename := "f.csv", new_path := "n", original_path := "o"
    headers_match := false, shape_match := true
    cell_differences := []
    new_shape := (1, 1), original_shape := (1, 1)
    error := some "Headers do not match"
    total_differences := none
    new_headers := some ["a"], original_headers := some ["b"] }

/-- C6 witness: a concrete header-mismatch comparison and its classification. -/
theorem C6_witness :
    (compare_csv_contents (.ok ⟨["a"], [["1"]]⟩) (.ok ⟨["b"], [["1"]]⟩)
      "f.csv" "n" "o" none 0).1 = .full hdrCmp ∧
    ((classify { ComparisonResult.init with detailed_differences := [.full hdrCmp] }
      (initResult ⟨none, "s"⟩)).status = "error" ∧
     (classify { ComparisonResult.init with detailed_differences := [.full hdrCmp] }
      (initResult ⟨none, "s"⟩)).is_buggy = some none) :=
  ⟨C6_header_mismatch_precedence.1 ⟨["a"], [["1"]]⟩ ⟨["b"], [["1"]]⟩
      "f.csv" "n" "o" 0 (by decide),
   C6_header_mismatch_precedence.2 _ _ ⟨.full hdrCmp, by simp, by decide, by decide⟩⟩

/-- Every outcome of `compare_csv_contents` carries the filename it was
invoked with. -/
theorem compare_filenameField (fetchN fetchO : Except String DataFrame)
    (fn np op : String) (c : Option Nat) (k0 : Nat) :
    ((compare_csv_contents fetchN fetchO fn np op c k0).1).filenameField = fn := by
  simp only [compare_csv_contents, compareRows]
  repeat' split
  all_goals simp [CmpOutcome.filenameField, mkCmp]

/-- `dictInsert` never changes the key list except possibly appending the
new key. -/
theorem dictInsert_keys (d : List (String × String)) (key val : String) :
    ((dictInsert d key val).map Prod.fst) = d.map Prod.fst ∨
    ((dictInsert d key val).map Prod.fst) = d.map Prod.fst ++ [key] := by
  unfold dictInsert
  split
  · left
    rw [List.map_map]
    apply List.map_congr_left
    intro p _
    by_cases h : p.1 = key <;> simp [h]
  · right; simp

theorem dictInsert_keys_nodup (d : List (String × String)) (key val : String)
    (h : (d.map Prod.fst).Nodup) : ((dictInsert d key val).map Prod.fst).Nodup := by
  rcases dictInsert_keys d key val with he | he <;> rw [he]
  · exact h
  · have hnk : key ∉ d.map Prod.fst := by
      by_contra hk
      have : d.any (·.1 = key) = true := by
        rw [List.any_eq_true]
        obtain ⟨p, hp, hpk⟩ := List.mem_map.mp hk
        exact ⟨p, hp, by simp [hpk]⟩
      unfold dictInsert at he
      rw [if_pos this] at he
      have := congrArg List.length he
      simp [List.length_map] at this
    simp [List.nodup_append, hnk, h]

/-- The Python dict comprehension yields pairwise-distinct keys. -/
theorem buildDict_nodup (files : List String) :
    ((buildDict files).map Prod.fst).Nodup := by
  unfold buildDict
  generalize hd : ([] : List (String × String)) = d0
  have h0 : (d0.map Prod.fst).Nodup := by rw [← hd]; simp
  clear hd
  induction files generalizing d0 with
  | nil => exact h0
  | cons f rest ih =>
    simp only [List.foldl_cons]
    exact ih _ (dictInsert_keys_nodup _ _ _ h0)

/-- In an association list with distinct keys, lookup of a member's key
returns that member's value. -/
theorem dictLookup_of_mem :
    ∀ (d : List (String × String)) (p : String × String),
      (d.map Prod.fst).Nodup → p ∈ d → dictLookup d p.1 = some p.2 := by
  intro d
  induction d with
  | nil => intro p _ hp; simp at hp
  | cons q rest ih =>
    intro p hnd hp
    rcases List.mem_cons.mp hp with rfl | hp
    · simp [dictLookup]
    · have hq : q.1 ≠ p.1 := by
        intro he
        have : p.1 ∈ rest.map Prod.fst := List.mem_map.mpr ⟨p, hp, rfl⟩
        rw [← he] at this
        exact (List.nodup_cons.mp (by simpa using hnd)).1 this
      have := ih p (List.nodup_cons.mp (by simpa using hnd)).2 hp
      simp only [dictLookup, List.find?] at this ⊢
      rw [show (decide (q.1 = p.1)) = false by simp [hq]]
      exact this

/-- Invariant carried through the per-file loop: a file present in both
locations whose stored checksums agree is never handed to the detailed
(download-both-files) comparator, and its `file_comparisons` entry reports
matching etags with no `cell_differences_count` and no comparison error. -/
theorem fileLoop_checksum_match (w : S3World) (f kn ko : String) (mN mO : FileMeta)
    (hmN : get_file_metadata w kn = some mN) (hmO : get_file_metadata w ko = some mO)
    (heq : mN.etag = mO.etag) :
    ∀ (L : List (String × String × String)) (res : ComparisonResult)
      (dl : List String) (k : Nat),
      (∀ t ∈ L, t.1 = f → t.2.1 = kn ∧ t.2.2 = ko) →
      f ∉ dl →
      (∀ e ∈ res.file_comparisons, e.filename = f →
        e.etags_match = true ∧ e.cell_differences_count = none ∧
        e.comparison_error = none) →
      (∀ d ∈ res.detailed_differences, d.filenameField ≠ f) →
      (f ∉ (fileLoop w none L res dl k).2.1 ∧
       (∀ e ∈ (fileLoop w none L res dl k).1.file_comparisons, e.filename = f →
         e.etags_match = true ∧ e.cell_differences_count = none ∧
         e.comparison_error = none) ∧
       (∀ d ∈ (fileLoop w none L res dl k).1.detailed_differences,
         d.filenameField ≠ f)) := by
  intro L
  induction L with
  | nil =>
    intro res dl k _ h2 h3 h4
    exact ⟨h2, h3, h4⟩
  | cons t rest ih =>
    intro res dl k h1 h2 h3 h4
    obtain ⟨n, a, b⟩ := t
    have hrest : ∀ t ∈ rest, t.1 = f → t.2.1 = kn ∧ t.2.2 = ko :=
      fun t ht => h1 t (by simp [ht])
    simp only [fileLoop, flagAt_none, Bool.false_eq_true, if_false]
    by_cases hnf : n = f
    · subst hnf
      obtain ⟨ha, hb⟩ := h1 (n, a, b) (by simp) rfl
      simp only at ha hb
      subst ha; subst hb
      rw [hmN, hmO]
      dsimp only
      by_cases htr : mN.etag ≠ "" ∧ mO.etag ≠ ""
      · rw [if_pos htr, if_pos heq]
        refine ih _ _ _ hrest h2 ?_ (fun d hd => h4 d hd)
        intro e he hef
        rcases List.mem_append.mp he with he | he
        · exact h3 e he hef
        · simp only [List.mem_singleton] at he
          subst he
          exact ⟨by simp [heq], rfl, rfl⟩
      · rw [if_neg htr]
        exact ih _ _ _ hrest h2 h3 h4
    · rcases hA : get_file_metadata w a with _ | mA <;>
        rcases hB : get_file_metadata w b with _ | mB <;> dsimp only
      · exact ih _ _ _ hrest h2 h3 h4
      · exact ih _ _ _ hrest h2 h3 h4
      · exact ih _ _ _ hrest h2 h3 h4
      · by_cases htr : mA.etag ≠ "" ∧ mB.etag ≠ ""
        · rw [if_pos htr]
          by_cases hee : mA.etag = mB.etag
          · rw [if_pos hee]
            refine ih _ _ _ hrest h2 ?_ (fun d hd => h4 d hd)
            intro e he hef
            rcases List.mem_append.mp he with he | he
            · exact h3 e he hef
            · simp only [List.mem_singleton] at he
              subst he
              exact absurd hef hnf
          · rw [if_neg hee]
            apply ih
            · exact hrest
            · intro hf
              rcases List.mem_append.mp hf with hf | hf
              · exact h2 hf
              · simp only [List.mem_singleton] at hf
                exact hnf hf.symm
            · intro e he hef
              rcases List.mem_append.mp he with he | he
              · exact h3 e he hef
              · simp only [List.mem_singleton] at he
                subst he
                exact absurd hef hnf
            · intro d hd
              rcases List.mem_append.mp hd with hd | hd
              · exact h4 d hd
              · simp only [List.mem_singleton] at hd
                subst hd
                rw [compare_filenameField]
                exact hnf
        · rw [if_neg htr]
          exact ih _ _ _ hrest h2 h3 h4

/-- C5: for a file present in both locations whose stored checksums (ETags)
match, no cell-level diff is attempted — the detailed comparator (the only
place both full files are downloaded) is never invoked for it, as witnessed
by the comparator's download trace — its `file_comparisons` entry has
`etags_match = true` with `cell_differences_count` absent and no comparison
error, and no detailed-differences entry for it exists. -/
theorem C5_checksum_short_circuit :
    ∀ (w : S3World) (np op f kn ko : String) (mN mO : FileMeta),
      dictLookup (buildDict (list_csv_files w np)) f = some kn →
      dictLookup (buildDict (list_csv_files w op)) f = some ko →
      get_file_metadata w kn = some mN →
      get_file_metadata w ko = some mO →
      mN.etag = mO.etag →
      (f ∉ (compare_csv_files w np op none 0).2.1 ∧
       (∀ e ∈ (compare_csv_files w np op none 0).1.file_comparisons,
         e.filename = f → e.etags_match = true ∧
           e.cell_differences_count = none ∧ e.comparison_error = none) ∧
       (∀ d ∈ (compare_csv_files w np op none 0).1.detailed_differences,
         d.filenameField ≠ f)) := by
  intro w np op f kn ko mN mO hkn hko hmN hmO heq
  have hpre : ∀ t ∈ (((buildDict (list_csv_files w np)).filter
      (fun p => (buildDict (list_csv_files w op)).any (·.1 = p.1))).map
      (fun p => (p.1, p.2, ((dictLookup (buildDict (list_csv_files w op)) p.1).getD "")))),
      t.1 = f → t.2.1 = kn ∧ t.2.2 = ko := by
    intro t ht htf
    obtain ⟨p, hp, rfl⟩ := List.mem_map.mp ht
    simp only at htf
    subst htf
    have hpmem : p ∈ buildDict (list_csv_files w np) := List.mem_of_mem_filter hp
    have h2 := dictLookup_of_mem _ p (buildDict_nodup _) hpmem
    refine ⟨Option.some.inj (h2.symm.trans hkn), ?_⟩
    show ((dictLookup (buildDict (list_csv_files w op)) p.1).getD "") = ko
    rw [hko]
    rfl
  simp only [compare_csv_files, flagAt_none, Bool.false_eq_true, if_false]
  exact fileLoop_checksum_match w f kn ko mN mO hmN hmO heq _ _ [] 1 hpre
    (by simp) (by intro e he; simp [ComparisonResult.init] at he)
    (by intro d hd; simp [ComparisonResult.init] at hd)

/-- Concrete storage world for the C5 witness: one file per prefix, same
checksum on both sides, downloads impossible. -/
def c5World : S3World :=
  { listing := fun p => if p = "new/" then .ok ["new/a.csv"] else .ok ["orig/a.csv"]
    headObj := fun _ => .ok ⟨"x", none, none⟩
    getCsv := fun _ => .error "not downloaded" }

/-- C5 witness: with matching etags the file is never handed to the detailed
comparator and its entry carries no cell-difference count. -/
theorem C5_witness :
    "a.csv" ∉ (compare_csv_files c5World "new" "orig" none 0).2.1 ∧
    (∀ e ∈ (compare_csv_files c5World "new" "orig" none 0).1.file_comparisons,
      e.filename = "a.csv" → e.etags_match = true ∧
        e.cell_differences_count = none ∧ e.comparison_error = none) ∧
    (∀ d ∈ (compare_csv_files c5World "new" "orig" none 0).1.detailed_differences,
      d.filenameField ≠ "a.csv") :=
  C5_checksum_short_circuit c5World "new" "orig" "a.csv" "new/a.csv" "orig/a.csv"
    ⟨"x", none, none⟩ ⟨"x", none, none⟩ (by decide) (by decide) rfl rfl rfl

/-- Submit succeeding on the first transport attempt with a zero status code
and a cache id. -/
theorem run_pipeline_first_ok (transport : Nat → Except String SubmitResponse)
    (cid : String) (h : transport 1 = .ok ⟨0, some cid⟩) (hc : cid ≠ "") :
    run_pipeline transport = (.ok cid, 1) := by
  have h1 : retry_request transport = ⟨.ok ⟨0, some cid⟩, 1, []⟩ := by
    rw [retry_request, retry_from, h]
  simp [run_pipeline, h1, hc]

/-- A comparison over prefixes whose listings raise degenerates to the empty
initial result: zero files compared, zero differences, no error marker. -/
theorem compare_listing_error (w : S3World) (np op : String)
    (errf : String → String) (hl : ∀ p, w.listing p = .error (errf p)) (k : Nat) :
    compare_csv_files w np op none k = (ComparisonResult.init, [], k + 1) := by
  simp [compare_csv_files, list_csv_files, hl, buildDict, fileLoop, flagAt_none,
    ComparisonResult.init]

/-- C10: when listing the CSV files under a prefix raises, `list_csv_files`
swallows the exception and returns an empty list; consequently a WorkItem
whose pipeline executed successfully but whose output prefixes cannot be
listed gets a comparison with zero files compared and zero differences and
is classified `not_buggy` — indistinguishable in status from a genuinely
clean comparison. -/
theorem C10_listing_failure_classified_not_buggy :
    (∀ (w : S3World) (p e : String), w.listing (normalizePfx p) = .error e →
      list_csv_files w p = []) ∧
    (∀ (w : Bool → AttemptWorld) (entry : Entry) (fuel : Nat) (ps : PipelineSpec)
      (v : List Step × String × PipeMeta) (cid : String) (errf : String → String),
      (w true).spec = .ok ps →
      validate_and_modify_pipeline_steps ps.pipeline ps.title = .ok v →
      (w true).testListing = .ok false →
      (w true).submit 1 = .ok ⟨0, some cid⟩ → cid ≠ "" →
      (w true).polls 0 = .ok ⟨"SUCCESS", none⟩ →
      (∀ p, (w true).s3.listing p = .error (errf p)) →
      0 < fuel →
      (process_pipeline w entry fuel true none 0).1.status = "not_buggy" ∧
      (process_pipeline w entry fuel true none 0).1.is_buggy = some (some false) ∧
      (process_pipeline w entry fuel true none 0).1.comparison =
        some ComparisonResult.init) := by
  constructor
  · intro w p e h
    simp [list_csv_files, h]
  · intro w entry fuel ps v cid errf hspec hval hex hsub hcid hpoll hlist hfuel
    obtain ⟨f, rfl⟩ : ∃ f, fuel = f + 1 := ⟨fuel - 1, by omega⟩
    have hrun := run_pipeline_first_ok _ cid hsub hcid
    have hwait : ∀ k, wait_for (w true).polls none (f + 1) 0 k =
        (.ok ("SUCCESS", none), 1, k + 1) := by
      intro k
      simp [wait_for, hpoll, truthyStr, flagAt_none]
    have hcmp := compare_listing_error (w true).s3
    refine ⟨?_, ?_, ?_⟩ <;>
      simp [process_pipeline, processBody, comparePhase, flagAt_none, hspec, hval,
        check_test_output_exists, hex, hrun, hwait, truthyStr, hcmp _ _ errf hlist,
        ComparisonResult.init, scanNeedsRerun, classify, scanHeaders, MSG_INTERRUPTED]

/-- Concrete world for the C10 witness: valid pipeline, successful run,
storage whose listings always raise. -/
def c10World : Bool → AttemptWorld := fun _ =>
  { spec := .ok ⟨"t", [⟨DUMP_RUN, some ⟨"orig", none, []⟩⟩]⟩
    testListing := .ok false
    submit := fun _ => .ok ⟨0, some "cid1"⟩
    polls := fun _ => .ok ⟨"SUCCESS", none⟩
    s3 := ⟨fun _ => .error "listing boom", fun _ => .error "x", fun _ => .error "x"⟩ }

/-- C10 witness: with listings raising everywhere, the lister returns `[]`
and the successfully-run WorkItem is classified `not_buggy` with an empty
comparison. -/
theorem C10_witness :
    list_csv_files (c10World true).s3 "anything" = [] ∧
    (process_pipeline c10World ⟨some "p", "s"⟩ 1 true none 0).1.status = "not_buggy" ∧
    (process_pipeline c10World ⟨some "p", "s"⟩ 1 true none 0).1.is_buggy =
      some (some false) ∧
    (process_pipeline c10World ⟨some "p", "s"⟩ 1 true none 0).1.comparison =
      some ComparisonResult.init :=
  ⟨C10_listing_failure_classified_not_buggy.1 (c10World true).s3 "anything"
      "listing boom" rfl,
   C10_listing_failure_classified_not_buggy.2 c10World ⟨some "p", "s"⟩ 1
    ⟨"t", [⟨DUMP_RUN, some ⟨"orig", none, []⟩⟩]⟩ _ "cid1" (fun _ => "listing boom")
    rfl rfl rfl rfl (by decide) rfl (fun _ => rfl) (by decide)⟩

theorem flagAt_some_false {t k : Nat} (h : flagAt (some t) k = false) : k < t := by
  simp only [flagAt, decide_eq_false_iff_not, not_le] at h
  exact h

theorem flagAt_some_true {t k : Nat} (h : flagAt (some t) k = true) : t ≤ k := by
  simpa [flagAt] using h

theorem flagAt_lt {t k : Nat} (h : k < t) : flagAt (some t) k = false := by
  simp [flagAt]; omega

theorem cellLoop_cons_check_false (c : Option Nat) (step : Nat → List CellDiff)
    (i : Nat) (rest : List Nat) (k : Nat) (acc : List CellDiff)
    (hmod : i % 100 = 0) (hf : flagAt c k = false) :
    cellLoop c step (i :: rest) k acc =
      cellLoop c step rest (k + 1) (acc ++ step i) := by
  simp [cellLoop, hmod, hf]

theorem cellLoop_cons_check_true (c : Option Nat) (step : Nat → List CellDiff)
    (i : Nat) (rest : List Nat) (k : Nat) (acc : List CellDiff)
    (hmod : i % 100 = 0) (hf : flagAt c k = true) :
    cellLoop c step (i :: rest) k acc = (acc, k + 1, true) := by
  simp [cellLoop, hmod, hf]

theorem cellLoop_cons_nocheck (c : Option Nat) (step : Nat → List CellDiff)
    (i : Nat) (rest : List Nat) (k : Nat) (acc : List CellDiff)
    (hmod : ¬i % 100 = 0) :
    cellLoop c step (i :: rest) k acc =
      cellLoop c step rest k (acc ++ step i) := by
  simp [cellLoop, hmod]

/-- A row loop that was not interrupted never advanced the counter past the
flag's set time (given it started below it). -/
theorem cellLoop_some_false_le (step : Nat → List CellDiff) (t : Nat) :
    ∀ (l : List Nat) (k : Nat) (acc : List CellDiff),
      (cellLoop (some t) step l k acc).2.2 = false → k ≤ t →
      (cellLoop (some t) step l k acc).2.1 ≤ t := by
  intro l
  induction l with
  | nil => intro k acc _ hk; exact hk
  | cons i rest ih =>
    intro k acc hfalse hk
    by_cases hmod : i % 100 = 0
    · by_cases hf : flagAt (some t) k = true
      · rw [cellLoop_cons_check_true _ _ _ _ _ _ hmod hf] at hfalse
        simp at hfalse
      · rw [Bool.not_eq_true] at hf
        have hkt := flagAt_some_false hf
        rw [cellLoop_cons_check_false _ _ _ _ _ _ hmod hf] at hfalse ⊢
        exact ih (k + 1) _ hfalse (by omega)
    · rw [cellLoop_cons_nocheck _ _ _ _ _ _ hmod] at hfalse ⊢
      exact ih k _ hfalse hk

/-- A row loop that was not interrupted behaves exactly like the flag-free
loop. -/
theorem cellLoop_some_false_eq (step : Nat → List CellDiff) (t : Nat) :
    ∀ (l : List Nat) (k : Nat) (acc : List CellDiff),
      (cellLoop (some t) step l k acc).2.2 = false →
      cellLoop (some t) step l k acc = cellLoop none step l k acc := by
  intro l
  induction l with
  | nil => intro k acc _; rfl
  | cons i rest ih =>
    intro k acc hfalse
    by_cases hmod : i % 100 = 0
    · by_cases hf : flagAt (some t) k = true
      · rw [cellLoop_cons_check_true _ _ _ _ _ _ hmod hf] at hfalse
        simp at hfalse
      · rw [Bool.not_eq_true] at hf
        rw [cellLoop_cons_check_false _ _ _ _ _ _ hmod hf,
          cellLoop_cons_check_false none _ _ _ _ _ hmod (flagAt_none k)]
        exact ih (k + 1) _ (by
          rw [cellLoop_cons_check_false _ _ _ _ _ _ hmod hf] at hfalse
          exact hfalse)
    · rw [cellLoop_cons_nocheck _ _ _ _ _ _ hmod,
        cellLoop_cons_nocheck none _ _ _ _ _ hmod]
      exact ih k _ (by
        rw [cellLoop_cons_nocheck _ _ _ _ _ _ hmod] at hfalse
        exact hfalse)

/-- Behaviour of one frame download when the flag is not yet set on entry:
either the flag fired during the download (the raised message is the
interrupt one and the counter has passed the set time), or the download
behaves exactly like the flag-free one and stays below the set time. -/
theorem download_some_spec (fetch : Except String DataFrame) (t k : Nat)
    (hk : k < t) :
    (t ≤ (download_csv fetch (some t) k).2 ∧
     (download_csv fetch (some t) k).1 = .error "Download cancelled due to interrupt") ∨
    (download_csv fetch (some t) k = download_csv fetch none k ∧
     (download_csv fetch (some t) k).2 ≤ t) := by
  have hf0 : flagAt (some t) k = false := flagAt_lt hk
  rcases fetch with e | df
  · by_cases hf1 : flagAt (some t) (k + 1) = true
    · left
      constructor
      · simp only [download_csv, hf0, Bool.false_eq_true, if_false, hf1, if_true]
        have := flagAt_some_true hf1
        omega
      · simp [download_csv, hf0, hf1]
    · rw [Bool.not_eq_true] at hf1
      right
      have := flagAt_some_false hf1
      constructor
      · simp [download_csv, hf0, hf1, flagAt_none]
      · simp only [download_csv, hf0, Bool.false_eq_true, if_false, hf1]
        omega
  · by_cases hf1 : flagAt (some t) (k + 1) = true
    · left
      constructor
      · simp only [download_csv, hf0, Bool.false_eq_true, if_false, hf1, if_true]
        have := flagAt_some_true hf1
        omega
      · simp [download_csv, hf0, hf1]
    · rw [Bool.not_eq_true] at hf1
      right
      have := flagAt_some_false hf1
      constructor
      · simp [download_csv, hf0, hf1, flagAt_none]
      · simp only [download_csv, hf0, Bool.false_eq_true, if_false, hf1]
        omega

/-- The row-comparison stage, entered below the flag's set time: if its
result does not carry the interrupted marker, it equals the flag-free run
and its counter never passed the set time. -/
theorem compareRows_some_complete (dfN dfO : DataFrame) (fn np op : String)
    (t k2 : Nat) (hk : k2 ≤ t)
    (hne : ((compareRows dfN dfO fn np op (some t) k2).1).errorField ≠
      some MSG_INTERRUPTED) :
    compareRows dfN dfO fn np op (some t) k2 =
      compareRows dfN dfO fn np op none k2 ∧
    (compareRows dfN dfO fn np op (some t) k2).2 ≤ t := by
  by_cases hc : dfN.cols ≠ dfO.cols
  · refine ⟨by simp [compareRows, hc], ?_⟩
    simpa [compareRows, hc] using hk
  · rcases hm : cellLoop (some t)
        (fun i => rowCellDiffs dfN.cols (dfN.row i) (dfO.row i) i)
        (List.range (min dfN.rows.length dfO.rows.length)) k2 [] with ⟨d1, k3, intr⟩
    cases intr with
    | true =>
      exfalso; apply hne
      simp [compareRows, hc, hm, CmpOutcome.errorField, mkCmp]
    | false =>
      have hmn : cellLoop none
          (fun i => rowCellDiffs dfN.cols (dfN.row i) (dfO.row i) i)
          (List.range (min dfN.rows.length dfO.rows.length)) k2 [] = (d1, k3, false) :=
        (cellLoop_some_false_eq _ t _ k2 [] (by rw [hm])).symm.trans hm
      have hle1 : k3 ≤ t := by
        have := cellLoop_some_false_le _ t
          (List.range (min dfN.rows.length dfO.rows.length)) k2 [] (by rw [hm]) hk
        rwa [hm] at this
      by_cases hf3 : flagAt (some t) k3 = true
      · exfalso; apply hne
        simp [compareRows, hc, hm, hf3, CmpOutcome.errorField, mkCmp]
      · rw [Bool.not_eq_true] at hf3
        have hk3 : k3 < t := flagAt_some_false hf3
        by_cases hlt : dfO.rows.length < dfN.rows.length
        · rcases hx : cellLoop (some t) (fun i => extraNewRowDiffs dfN i)
              (rangeFromTo dfO.rows.length dfN.rows.length) (k3 + 1) d1 with ⟨d2, k4, intr2⟩
          cases intr2 with
          | true =>
            exfalso; apply hne
            simp [compareRows, hc, hm, hf3, hlt, hx, CmpOutcome.errorField, mkCmp]
          | false =>
            have hxn : cellLoop none (fun i => extraNewRowDiffs dfN i)
                (rangeFromTo dfO.rows.length dfN.rows.length) (k3 + 1) d1 =
                  (d2, k4, false) :=
              (cellLoop_some_false_eq _ t _ (k3 + 1) d1 (by rw [hx])).symm.trans hx
            have hle2 : k4 ≤ t := by
              have := cellLoop_some_false_le _ t
                (rangeFromTo dfO.rows.length dfN.rows.length) (k3 + 1) d1
                (by rw [hx]) (by omega)
              rwa [hx] at this
            constructor
            · simp [compareRows, hc, hm, hmn, hf3, hlt, hx, hxn, flagAt_none]
            · simp only [compareRows, hc, hm, hf3, hlt, hx]
              simp [hlt, hx, hf3]
              omega
        · by_cases hlt2 : dfN.rows.length < dfO.rows.length
          · rcases hx : cellLoop (some t) (fun i => extraOrigRowDiffs dfO i)
                (rangeFromTo dfN.rows.length dfO.rows.length) (k3 + 1) d1 with ⟨d2, k4, intr2⟩
            cases intr2 with
            | true =>
              exfalso; apply hne
              simp [compareRows, hc, hm, hf3, hlt, hlt2, hx, CmpOutcome.errorField, mkCmp]
            | false =>
              have hxn : cellLoop none (fun i => extraOrigRowDiffs dfO i)
                  (rangeFromTo dfN.rows.length dfO.rows.length) (k3 + 1) d1 =
                    (d2, k4, false) :=
                (cellLoop_some_false_eq _ t _ (k3 + 1) d1 (by rw [hx])).symm.trans hx
              have hle2 : k4 ≤ t := by
                have := cellLoop_some_false_le _ t
                  (rangeFromTo dfN.rows.length dfO.rows.length) (k3 + 1) d1
                  (by rw [hx]) (by omega)
                rwa [hx] at this
              constructor
              · simp [compareRows, hc, hm, hmn, hf3, hlt, hlt2, hx, hxn, flagAt_none]
              · simp only [compareRows, hc, hm, hf3, hlt, hlt2, hx]
                simp [hlt, hlt2, hx, hf3]
                omega
          · constructor
            · simp [compareRows, hc, hm, hmn, hf3, hlt, hlt2, flagAt_none]
            · simp only [compareRows, hc, hm, hf3, hlt, hlt2]
              simp [hlt, hlt2, hf3]
              omega

/-- If a comparison run (flag set at time `t`) does not report the
interrupted marker, it is identical to the flag-free (complete) run and all
its flag reads happened before `t`. -/
theorem compare_some_complete (fetchN fetchO : Except String DataFrame)
    (fn np op : String) (t k0 : Nat)
    (hne : ((compare_csv_contents fetchN fetchO fn np op (some t) k0).1).errorField ≠
      some MSG_INTERRUPTED) :
    compare_csv_contents fetchN fetchO fn np op (some t) k0 =
      compare_csv_contents fetchN fetchO fn np op none k0 ∧
    (compare_csv_contents fetchN fetchO fn np op (some t) k0).2 ≤ t := by
  by_cases hc0 : flagAt (some t) k0 = true
  · exfalso; apply hne
    simp [compare_csv_contents, hc0, CmpOutcome.errorField]
  · rw [Bool.not_eq_true] at hc0
    have hk0 : k0 < t := flagAt_some_false hc0
    by_cases hkt1 : k0 + 1 < t
    · rcases hd : download_csv fetchN (some t) (k0 + 1) with ⟨r1, k1⟩
      rcases download_some_spec fetchN t (k0 + 1) hkt1 with ⟨hge, herr⟩ | ⟨heqd, hled⟩
      · rw [hd] at hge herr
        dsimp only at hge herr
        subst herr
        exfalso; apply hne
        have hf1 : flagAt (some t) k1 = true := by simp [flagAt]; omega
        simp [compare_csv_contents, hc0, hd, hf1, CmpOutcome.errorField]
      · rw [hd] at heqd hled
        dsimp only at hled
        cases r1 with
        | error e =>
          by_cases hf1 : flagAt (some t) k1 = true
          · exfalso; apply hne
            simp [compare_csv_contents, hc0, hd, hf1, CmpOutcome.errorField]
          · rw [Bool.not_eq_true] at hf1
            constructor
            · simp [compare_csv_contents, hc0, hd, hf1, flagAt_none, ← heqd]
            · have hk1 := flagAt_some_false hf1
              simp only [compare_csv_contents, hc0, Bool.false_eq_true, if_false, hd,
                hf1]
              omega
        | ok dfN =>
          by_cases hklt : k1 < t
          · rcases hd2 : download_csv fetchO (some t) k1 with ⟨r2, k2⟩
            rcases download_some_spec fetchO t k1 hklt with ⟨hge2, herr2⟩ | ⟨heqd2, hled2⟩
            · rw [hd2] at hge2 herr2
              dsimp only at hge2 herr2
              subst herr2
              exfalso; apply hne
              have hf2 : flagAt (some t) k2 = true := by simp [flagAt]; omega
              simp [compare_csv_contents, hc0, hd, hd2, hf2, CmpOutcome.errorField]
            · rw [hd2] at heqd2 hled2
              dsimp only at hled2
              cases r2 with
              | error e =>
                by_cases hf2 : flagAt (some t) k2 = true
                · exfalso; apply hne
                  simp [compare_csv_contents, hc0, hd, hd2, hf2, CmpOutcome.errorField]
                · rw [Bool.not_eq_true] at hf2
                  have hk2 := flagAt_some_false hf2
                  constructor
                  · simp [compare_csv_contents, hc0, hd, hd2, hf2, flagAt_none,
                      ← heqd, ← heqd2]
                  · simp only [compare_csv_contents, hc0, Bool.false_eq_true, if_false,
                      hd, hd2, hf2]
                    omega
              | ok dfO =>
                have hneR : ((compareRows dfN dfO fn np op (some t) k2).1).errorField ≠
                    some MSG_INTERRUPTED := by
                  intro hcontra
                  apply hne
                  simp [compare_csv_contents, hc0, hd, hd2, hcontra]
                obtain ⟨hReq, hRle⟩ := compareRows_some_complete dfN dfO fn np op t k2
                  hled2 hneR
                constructor
                · simp [compare_csv_contents, hc0, hd, hd2, flagAt_none, ← heqd,
                    ← heqd2, hReq]
                · simp only [compare_csv_contents, hc0, Bool.false_eq_true, if_false,
                    hd, hd2]
                  exact hRle
          · exfalso; apply hne
            have hf1 : flagAt (some t) k1 = true := by simp [flagAt]; omega
            have hd2 : download_csv fetchO (some t) k1 =
                (.error "Download cancelled due to interrupt", k1 + 1) := by
              simp [download_csv, hf1]
            have hf2 : flagAt (some t) (k1 + 1) = true := by simp [flagAt]; omega
            simp [compare_csv_contents, hc0, hd, hd2, hf2, CmpOutcome.errorField]
    · exfalso; apply hne
      have hf1 : flagAt (some t) (k0 + 1) = true := by simp [flagAt]; omega
      have hd1 : download_csv fetchN (some t) (k0 + 1) =
          (.error "Download cancelled due to interrupt", k0 + 2) := by
        simp [download_csv, hf1]
      have hf2 : flagAt (some t) (k0 + 2) = true := by simp [flagAt]; omega
      simp [compare_csv_contents, hc0, hd1, hf2, CmpOutcome.errorField]

/-- Once an interrupted comparison has been seen, the scan reports it unless
it breaks on a header mismatch first. -/
theorem scanHeaders_acc :
    ∀ (l : List CmpOutcome),
      (scanHeaders true l).1 = true ∨ (scanHeaders true l).2.1 = true := by
  intro l
  induction l with
  | nil => left; rfl
  | cons d rest ih =>
    by_cases he : d.errorField = some MSG_INTERRUPTED
    · simpa [scanHeaders, he] using ih
    · by_cases hm : d.headersMatchField = false
      · right; simp [scanHeaders, he, hm]
      · simpa [scanHeaders, he, hm] using ih

/-- A detailed entry carrying the interrupted marker forces the scan to
report either an interrupted comparison or a header mismatch. -/
theorem scanHeaders_marker :
    ∀ (l : List CmpOutcome) (a : Bool),
      (∃ d ∈ l, d.errorField = some MSG_INTERRUPTED) →
      (scanHeaders a l).1 = true ∨ (scanHeaders a l).2.1 = true := by
  intro l
  induction l with
  | nil => intro a h; simp at h
  | cons d rest ih =>
    intro a h
    by_cases he : d.errorField = some MSG_INTERRUPTED
    · simpa [scanHeaders, he] using scanHeaders_acc rest
    · by_cases hm : d.headersMatchField = false
      · right; simp [scanHeaders, he, hm]
      · have hrest : ∃ x ∈ rest, x.errorField = some MSG_INTERRUPTED := by
          obtain ⟨x, hx, hxe⟩ := h
          rcases List.mem_cons.mp hx with rfl | hx
          · exact absurd hxe he
          · exact ⟨x, hx, hxe⟩
        simpa [scanHeaders, he, hm] using ih a hrest

/-- Classification of a comparison with an interrupted detail never yields
`not_buggy` (it yields `interrupted`, or `error` on a header mismatch). -/
theorem classify_marker_not_clean (cmp : ComparisonResult) (r : ProcResult)
    (h : ∃ d ∈ cmp.detailed_differences, d.errorField = some MSG_INTERRUPTED) :
    (classify cmp r).status ≠ "not_buggy" := by
  unfold classify
  rcases hs : scanHeaders false cmp.detailed_differences with ⟨hi, hh, fn⟩
  have hmk := scanHeaders_marker cmp.detailed_differences false h
  rw [hs] at hmk
  dsimp only at hmk ⊢
  rcases hmk with hmk | hmk <;> subst hmk
  · by_cases hh2 : hh = true
    · subst hh2
      cases fn <;> simp
    · rw [Bool.not_eq_true] at hh2
      subst hh2
      cases fn <;> simp
  · cases fn <;> simp

/-- `classify` never touches the stored comparison. -/
theorem classify_comparison (cmp : ComparisonResult) (r : ProcResult) :
    (classify cmp r).comparison = r.comparison := by
  unfold classify
  rcases scanHeaders false cmp.detailed_differences with ⟨hi, hh, fn⟩
  cases fn <;> dsimp only <;> (repeat' split) <;> rfl

/-- The classify step never turns a comparison carrying an interrupted
detail into `not_buggy`. -/
theorem finish_marker (cmp : ComparisonResult) (r : ProcResult) (pmv : Bool)
    (herr : ¬cmp.error = some MSG_INTERRUPTED) :
    comparisonInterrupted (classify cmp
      { r with
        comparison := some cmp
        preserve_missing_values := some pmv }) = true →
    (classify cmp
      { r with
        comparison := some cmp
        preserve_missing_values := some pmv }).status ≠ "not_buggy" := by
  intro hm
  have hcomp := classify_comparison cmp
    { r with comparison := some cmp, preserve_missing_values := some pmv }
  simp only [comparisonInterrupted, hcomp] at hm
  simp only [herr, decide_eq_true_eq, List.any_eq_true, Bool.or_eq_true,
    decide_eq_false herr, Bool.false_or] at hm
  rcases hm with hm | hm
  · exact hm.elim
  · obtain ⟨d, hd, hde⟩ := hm
    exact classify_marker_not_clean cmp _ ⟨d, hd, hde⟩

/-- The comparison phase never reports `not_buggy` for a run whose stored
comparison carries an interrupted marker. -/
theorem comparePhase_marker (rerun : Option Nat → Nat → ProcResult × Trace × Nat)
    (s3 : S3World) (pmv : Bool) (r : ProcResult) (subs pols : Nat)
    (c : Option Nat) (k : Nat)
    (hrer : ∀ c' k', comparisonInterrupted ((rerun c' k').1) = true →
      ((rerun c' k').1).status ≠ "not_buggy") :
    comparisonInterrupted ((comparePhase rerun s3 pmv r subs pols c k).1) = true →
    ((comparePhase rerun s3 pmv r subs pols c k).1).status ≠ "not_buggy" := by
  unfold comparePhase
  rcases hout : compare_csv_files s3 (TEST_PFX ++ "/" ++ r.pipeline_title.getD "")
      (r.original_pfx.getD "") c k with ⟨cmp, dl, k2⟩
  simp only [hout]
  by_cases herr : cmp.error = some MSG_INTERRUPTED
  · rw [if_pos herr]
    intro _
    simp
  · rw [if_neg herr]
    by_cases hp : pmv = true
    · rw [if_pos hp]
      by_cases hf : flagAt c k2 = true
      · rw [if_pos hf]
        exact finish_marker cmp r pmv herr
      · rw [if_neg hf]
        by_cases hs : scanNeedsRerun cmp = true
        · rw [if_pos hs]
          exact hrer c (k2 + 1)
        · rw [if_neg hs]
          exact finish_marker cmp r pmv herr
    · rw [if_neg hp]
      exact finish_marker cmp r pmv herr

/-- One `processBody` execution never reports `not_buggy` when its stored
comparison carries an interrupted marker. -/
theorem processBody_marker (rerun : Option Nat → Nat → ProcResult × Trace × Nat)
    (w : AttemptWorld) (pmv : Bool) (entry : Entry) (fuel : Nat)
    (c : Option Nat) (k : Nat)
    (hrer : ∀ c' k', comparisonInterrupted ((rerun c' k').1) = true →
      ((rerun c' k').1).status ≠ "not_buggy") :
    comparisonInterrupted ((processBody rerun w pmv entry fuel c k).1) = true →
    ((processBody rerun w pmv entry fuel c k).1).status ≠ "not_buggy" := by
  simp only [processBody]
  repeat' split
  all_goals first
    | (exact comparePhase_marker rerun w.s3 pmv _ _ _ c _ hrer)
    | (intro hm; simp [comparisonInterrupted, initResult] at hm)

/-- C1: interrupt distinctness.  (i) Whenever the cancellation flag becomes
observable during a comparison — its set time `t` lies below the final
check counter, i.e. some executed `is_set()` read returned true — the
returned result carries the explicit interrupted marker in its error field.
(ii) A result without an error is never a silently-truncated diff: it is
identical to the complete flag-free comparison, so an interrupted run is
never reported as a complete comparison with zero differences.  (iii) At the
WorkItem level, a result whose comparison carries the interrupted marker is
never classified `not_buggy`. -/
theorem C1_interrupt_distinctness :
    (∀ (fetchN fetchO : Except String DataFrame) (fn np op : String) (t k0 : Nat),
      t < (compare_csv_contents fetchN fetchO fn np op (some t) k0).2 →
      ((compare_csv_contents fetchN fetchO fn np op (some t) k0).1).errorField =
        some MSG_INTERRUPTED) ∧
    (∀ (fetchN fetchO : Except String DataFrame) (fn np op : String)
      (c : Option Nat) (k0 : Nat),
      ((compare_csv_contents fetchN fetchO fn np op c k0).1).errorField = none →
      (compare_csv_contents fetchN fetchO fn np op c k0).1 =
        (compare_csv_contents fetchN fetchO fn np op none k0).1) ∧
    (∀ (w : Bool → AttemptWorld) (entry : Entry) (fuel : Nat) (pmv : Bool)
      (c : Option Nat) (k : Nat),
      comparisonInterrupted ((process_pipeline w entry fuel pmv c k).1) = true →
      ((process_pipeline w entry fuel pmv c k).1).status ≠ "not_buggy") := by
  refine ⟨?_, ?_, ?_⟩
  · intro fetchN fetchO fn np op t k0 hlt
    by_cases he : ((compare_csv_contents fetchN fetchO fn np op (some t) k0).1).errorField =
        some MSG_INTERRUPTED
    · exact he
    · have := (compare_some_complete fetchN fetchO fn np op t k0 he).2
      omega
  · intro fetchN fetchO fn np op c k0 hnone
    cases c with
    | none => rfl
    | some t =>
      have hne : ((compare_csv_contents fetchN fetchO fn np op (some t) k0).1).errorField ≠
          some MSG_INTERRUPTED := by rw [hnone]; simp
      exact congrArg Prod.fst (compare_some_complete fetchN fetchO fn np op t k0 hne).1
  · intro w entry fuel pmv c k
    cases pmv with
    | false =>
      exact processBody_marker (noRerun entry) (w false) false entry fuel c k
        (fun c' k' hm => by simp [noRerun, comparisonInterrupted, initResult] at hm)
    | true =>
      exact processBody_marker _ (w true) true entry fuel c k
        (fun c' k' => processBody_marker (noRerun entry) (w false) false entry fuel c' k'
          (fun c'' k'' hm => by
            simp [noRerun, comparisonInterrupted, initResult] at hm))

/-- Concrete world for the C1 witness: the reuse path runs straight into the
comparison, and the flag set at time 1 fires at the comparison's first
check. -/
def c1World : Bool → AttemptWorld := fun _ =>
  { spec := .ok ⟨"t", [⟨DUMP_RUN, some ⟨"orig", none, []⟩⟩]⟩
    testListing := .ok true
    submit := fun _ => .error "x"
    polls := fun _ => .error "x"
    s3 := ⟨fun _ => .ok [], fun _ => .error "x", fun _ => .error "x"⟩ }

/-- C1 witness: a comparison whose first check observes the flag carries the
interrupted marker; an error-free run under a late flag equals the flag-free
run; a WorkItem whose comparison was interrupted is not `not_buggy`. -/
theorem C1_witness :
    ((compare_csv_contents (.ok ⟨["a"], [["1"]]⟩) (.ok ⟨["a"], [["1"]]⟩)
      "f.csv" "n" "o" (some 0) 0).1).errorField = some MSG_INTERRUPTED ∧
    (compare_csv_contents (.ok ⟨["a"], [["1"]]⟩) (.ok ⟨["a"], [["2"]]⟩)
      "f.csv" "n" "o" (some 99) 0).1 =
      (compare_csv_contents (.ok ⟨["a"], [["1"]]⟩) (.ok ⟨["a"], [["2"]]⟩)
        "f.csv" "n" "o" none 0).1 ∧
    (process_pipeline c1World ⟨some "p", "s"⟩ 0 true (some 1) 0).1.status ≠
      "not_buggy" :=
  ⟨C1_interrupt_distinctness.1 _ _ "f.csv" "n" "o" 0 0 (by decide),
   C1_interrupt_distinctness.2.1 _ _ "f.csv" "n" "o" (some 99) 0 (by decide),
   C1_interrupt_distinctness.2.2 c1World ⟨some "p", "s"⟩ 0 true (some 1) 0 (by decide)⟩
